import Mathlib

/-!
Verification of the rgy Game Boy emulator core against its specification.

Each Rust component referenced by the claims is shallowly embedded as
executable Lean definitions: machine integers become `Nat` with explicit
`% 2^w` where wrap-around matters, stateful methods become functions that
return the updated state, and panicking paths become `Option`.
-/

/- ===================== Interrupt controller (src/core/src/ic.rs) ===================== -/

/-- `Ints` from ic.rs: the five interrupt lines of IE / IF. -/
structure Ints where
  vblank : Bool
  lcd    : Bool
  timer  : Bool
  serial : Bool
  joypad : Bool
deriving DecidableEq, Repr

/-- `Ints::set` from ic.rs. -/
def Ints.set (v : Nat) : Ints :=
  { vblank := v &&& 0x01 != 0
    lcd    := v &&& 0x02 != 0
    timer  := v &&& 0x04 != 0
    serial := v &&& 0x08 != 0
    joypad := v &&& 0x10 != 0 }

/-- `Ints::get` from ic.rs. -/
def Ints.get (i : Ints) : Nat :=
  (if i.vblank then 0x01 else 0) |||
  (if i.lcd then 0x02 else 0) |||
  (if i.timer then 0x04 else 0) |||
  (if i.serial then 0x08 else 0) |||
  (if i.joypad then 0x10 else 0)

/-- `Ic::check` from ic.rs: select the highest-priority pending vector,
writing `!consume` back into the matched request bit. -/
def icCheck (consume : Bool) (e r : Ints) : Option Nat × Ints :=
  if e.vblank && r.vblank then (some 0x40, { r with vblank := !consume })
  else if e.lcd && r.lcd then (some 0x48, { r with lcd := !consume })
  else if e.timer && r.timer then (some 0x50, { r with timer := !consume })
  else if e.serial && r.serial then (some 0x58, { r with serial := !consume })
  else if e.joypad && r.joypad then (some 0x60, { r with joypad := !consume })
  else (none, r)

/-- The claim-side predicate "some interrupt is both enabled in IE and pending in IF". -/
def anyPending (e r : Ints) : Bool :=
  (e.vblank && r.vblank) || (e.lcd && r.lcd) || (e.timer && r.timer) ||
  (e.serial && r.serial) || (e.joypad && r.joypad)

/-- Spec-side: the vector of the lowest-numbered enabled-and-pending bit
(0x40/0x48/0x50/0x58/0x60 for bits 0..4). -/
def lowestVec (e r : Ints) : Nat :=
  if e.vblank && r.vblank then 0x40
  else if e.lcd && r.lcd then 0x48
  else if e.timer && r.timer then 0x50
  else if e.serial && r.serial then 0x58
  else 0x60

/-- Spec-side: clear exactly the lowest-numbered enabled-and-pending bit of IF. -/
def clearLowest (e r : Ints) : Ints :=
  if e.vblank && r.vblank then { r with vblank := false }
  else if e.lcd && r.lcd then { r with lcd := false }
  else if e.timer && r.timer then { r with timer := false }
  else if e.serial && r.serial then { r with serial := false }
  else { r with joypad := false }

/- ===================== CPU (src/core/src/cpu.rs) ===================== -/

/-- `CpuState` from cpu.rs (the `steps_data` display field is omitted:
it carries the scanline to the host and feeds back into no state). -/
structure CpuState where
  a : Nat
  b : Nat
  c : Nat
  d : Nat
  e : Nat
  f : Nat
  h : Nat
  l : Nat
  pc : Nat
  sp : Nat
  ime : Bool
  ei_delay : Nat
  di_delay : Nat
  halt : Bool
  halt_bug : Bool
  cycles : Nat
deriving DecidableEq, Repr

/-- `CpuState::new` from cpu.rs. -/
def CpuState.new : CpuState :=
  { a := 0, b := 0, c := 0, d := 0, e := 0, f := 0, h := 0, l := 0
    pc := 0, sp := 0, ime := true, ei_delay := 0, di_delay := 0
    halt := false, halt_bug := false, cycles := 0 }

/-- The CPU's view of the system (`T: Sys` in cpu.rs), instantiated with a
flat byte memory (the shape of `mmu::Ram` used by the cpu.rs tests) plus the
interrupt controller state and a log of the cycle arguments of `sys.step`. -/
structure Machine where
  cpu : CpuState
  enable : Ints
  request : Ints
  ram : Nat → Nat
  log : List Nat

/-- `Cpu::step` from cpu.rs: add to `state.cycles` (usize, wrapping) and
forward to `sys.step` (recorded in the log; the returned `line_to_draw`
carries no CPU-visible state). -/
def Machine.step (m : Machine) (cy : Nat) : Machine :=
  { m with cpu := { m.cpu with cycles := (m.cpu.cycles + cy) % 2 ^ 64 }
           log := m.log ++ [cy] }

/-- `Sys::peek_int_vec`, backed by `Ic::peek` = `Ic::check(false)`. -/
def Machine.peekIntVec (m : Machine) : Option Nat × Machine :=
  let p := icCheck false m.enable m.request
  (p.1, { m with request := p.2 })

/-- `Sys::pop_int_vec`, backed by `Ic::poll` = `Ic::check(true)`. -/
def Machine.popIntVec (m : Machine) : Option Nat × Machine :=
  let p := icCheck true m.enable m.request
  (p.1, { m with request := p.2 })

/-- `Sys::set8` on the flat memory model (addresses and bytes reduced to u16/u8). -/
def Machine.sysSet8 (m : Machine) (addr v : Nat) : Machine :=
  { m with ram := fun x => if x = addr % 65536 then v % 256 else m.ram x }

/-- `Sys::set16` default implementation from cpu.rs: low byte at `addr`,
high byte at `addr + 1` (u16 address arithmetic). -/
def Machine.sysSet16 (m : Machine) (addr v : Nat) : Machine :=
  (m.sysSet8 addr (v % 256)).sysSet8 ((addr + 1) % 65536) ((v / 256) % 256)

/-- `Cpu::jump` from cpu.rs. -/
def Machine.jump (m : Machine) (a : Nat) : Machine :=
  let m := m.step 4
  { m with cpu := { m.cpu with pc := a } }

/-- `Cpu::set16` from cpu.rs: step 8 cycles, then write through `sys`. -/
def Machine.set16 (m : Machine) (a v : Nat) : Machine :=
  (m.step 8).sysSet16 a v

/-- `Cpu::push` from cpu.rs: decrement SP by 2 (wrapping) and store. -/
def Machine.push (m : Machine) (v : Nat) : Machine :=
  let p := (m.cpu.sp + 65534) % 65536
  let m := { m with cpu := { m.cpu with sp := (m.cpu.sp + 65534) % 65536 } }
  m.set16 p v

/-- `Cpu::interrupted` from cpu.rs. -/
def Machine.interrupted (m : Machine) (vectorAddr : Nat) : Machine :=
  let m := if m.cpu.halt then
      let m := { m with cpu := { m.cpu with halt := false } }
      m.step 4
    else m
  let m := { m with cpu := { m.cpu with ime := false } }
  let m := m.step 8
  let m := m.push m.cpu.pc
  m.jump vectorAddr

/-- `Cpu::check_interrupt` from cpu.rs. -/
def Machine.checkInterrupt (m : Machine) : Machine :=
  if !m.cpu.ime then
    if m.cpu.halt then
      match m.peekIntVec with
      | (some _, m1) =>
        let m2 := m1.step 4
        { m2 with cpu := { m2.cpu with halt := false } }
      | (none, m1) => m1
    else m
  else
    match m.popIntVec with
    | (none, m1) => m1
    | (some v, m1) => m1.interrupted v

/-- `Cpu::halt` from cpu.rs (named `haltOp` as `halt` is the state field). -/
def Machine.haltOp (m : Machine) : Machine :=
  if !m.cpu.ime then
    match m.peekIntVec with
    | (some _, m1) => { m1 with cpu := { m1.cpu with halt_bug := true } }
    | (none, m1) => { m1 with cpu := { m1.cpu with halt := true } }
  else { m with cpu := { m.cpu with halt := true } }

/-- `Cpu::inc_pc` from cpu.rs: skip the increment once when HALT_BUG is set. -/
def Machine.incPc (m : Machine) : Machine :=
  if m.cpu.halt_bug then { m with cpu := { m.cpu with halt_bug := false } }
  else { m with cpu := { m.cpu with pc := (m.cpu.pc + 1) % 65536 } }

/-- `Cpu::prefetch` from cpu.rs: read the opcode byte without consuming cycles. -/
def Machine.prefetch (m : Machine) : Nat × Machine :=
  (m.ram m.cpu.pc, m.incPc)

/-- `Cpu::get8` from cpu.rs: step 4 cycles and read through `sys`. -/
def Machine.get8 (m : Machine) (a : Nat) : Nat × Machine :=
  let m := m.step 4
  (m.ram (a % 65536), m)

/-- `Cpu::fetch8` from cpu.rs. -/
def Machine.fetch8 (m : Machine) : Nat × Machine :=
  let p := m.get8 m.cpu.pc
  (p.1, p.2.incPc)

/-- `Cpu::fetch_opcode` from cpu.rs. -/
def Machine.fetchOpcode (m : Machine) : Nat × Machine :=
  let p := m.prefetch
  if p.1 = 0xcb then
    let q := p.2.fetch8
    (0xcb00 ||| q.1, q.2)
  else p

/- ===================== Timer (src/core/src/timer.rs) ===================== -/

/-- `Timer` from timer.rs. -/
structure Timer where
  div : Nat
  div_clocks : Nat
  tim : Nat
  tim_clocks : Nat
  tim_load : Nat
  ctrl : Nat
deriving DecidableEq, Repr

/-- `Timer::default` (all fields zero). -/
def Timer.default : Timer :=
  { div := 0, div_clocks := 0, tim := 0, tim_clocks := 0, tim_load := 0, ctrl := 0 }

/-- The interval `Timer::tim_clock_reset` loads, from `ctrl & 0x3`. -/
def tacInterval (ctrl : Nat) : Nat :=
  if ctrl &&& 0x3 = 0x0 then 1024
  else if ctrl &&& 0x3 = 0x1 then 16
  else if ctrl &&& 0x3 = 0x2 then 64
  else 256

/-- `Timer::tim_clock_reset` from timer.rs. -/
def Timer.timClockReset (t : Timer) : Timer :=
  { t with tim_clocks := tacInterval t.ctrl }

/-- The DIV half of `Timer::step`.  The inner `self.div_clocks -= rem` is a
usize subtraction; every caller steps by at most a few cycles, so
`rem = time - div_clocks ≤ 256` and `Nat` truncation never differs. -/
def Timer.stepDiv (t : Timer) (time : Nat) : Timer :=
  if t.div_clocks < time then
    let rem := time - t.div_clocks
    { t with div := (t.div + 1) % 256, div_clocks := 256 - rem }
  else
    { t with div_clocks := t.div_clocks - time }

/-- The `loop` inside `Timer::step`: repeatedly increment TIMA; on overflow
reload from `tim_load` and raise the timer interrupt.  `irqT` threads the
IF timer bit.  Terminates because each pass subtracts
`tacInterval ctrl ≥ 16` from `rem`. -/
def timLoop (ctrl tim_load : Nat) (tim : Nat) (irqT : Bool) (rem : Nat) :
    Nat × Nat × Bool :=
  let of := tim = 255
  let tim1 := if of then tim_load else (tim + 1) % 256
  let irq1 := if of then true else irqT
  let clocks := tacInterval ctrl
  if _hrem : rem ≤ clocks then (tim1, clocks - rem, irq1)
  else timLoop ctrl tim_load tim1 irq1 (rem - clocks)
termination_by rem
decreasing_by
  have hpos : 0 < tacInterval ctrl := by
    unfold tacInterval
    split <;> norm_num
    split <;> norm_num
    split <;> norm_num
  omega

/-- The TIMA half of `Timer::step` (runs after the DIV half; returns early
when TAC bit 2 is clear). -/
def Timer.stepTim (t : Timer) (irq : Ints) (time : Nat) : Timer × Ints :=
  if t.ctrl &&& 0x04 = 0 then (t, irq)
  else if t.tim_clocks < time then
    let rem := time - t.tim_clocks
    let r := timLoop t.ctrl t.tim_load t.tim irq.timer rem
    ({ t with tim := r.1, tim_clocks := r.2.1 }, { irq with timer := r.2.2 })
  else
    ({ t with tim_clocks := t.tim_clocks - time }, irq)

/-- `Timer::step` from timer.rs: DIV bookkeeping, then TIMA. -/
def Timer.step (t : Timer) (irq : Ints) (time : Nat) : Timer × Ints :=
  (t.stepDiv time).stepTim irq time

/-- `Timer::on_write` from timer.rs (`IoHandler::on_write`); addresses other
than 0xff04..=0xff07 are `unreachable!` and leave the state unchanged here. -/
def Timer.onWrite (t : Timer) (addr value : Nat) : Timer :=
  if addr = 0xff04 then { t with div := 0 }
  else if addr = 0xff05 then { t with tim := value }
  else if addr = 0xff06 then { t with tim_load := value }
  else if addr = 0xff07 then
    let old_ctrl := t.ctrl
    let t := { t with ctrl := value }
    if old_ctrl &&& 4 = 0 && value &&& 4 != 0 then t.timClockReset else t
  else t

/-- One 4-cycle tick of `Timer::step` over the (timer, IF) pair. -/
def timerTick (s : Timer × Ints) : Timer × Ints :=
  Timer.step s.1 s.2 4

/- ===================== PPU (src/core/src/gpu.rs) ===================== -/

/-- Modelled from the spec: the `Ints` bitflags used by this gpu.rs revision
live in an ic.rs revision that is not under src/; per spec §3 the IF bits are
bit 0 VBLANK and bit 1 LCD STAT.  The request mask is a `Nat` below 256. -/
def intVBLANK : Nat := 0x01

/-- Modelled from the spec: IF bit 1 is LCD STAT. -/
def intLCD : Nat := 0x02

/-- `LcdStatus` bitflags from gpu.rs (bits 6/5/4/3 of STAT). -/
structure LcdStatus where
  lyc_int : Bool
  oam_int : Bool
  vblank_int : Bool
  hblank_int : Bool
deriving DecidableEq, Repr

/-- `LcdStatus::from_bits_truncate`. -/
def LcdStatus.ofBits (v : Nat) : LcdStatus :=
  { lyc_int := v.testBit 6, oam_int := v.testBit 5
    vblank_int := v.testBit 4, hblank_int := v.testBit 3 }

/-- `Mode` from gpu.rs. -/
inductive Mode where
  | oamScan
  | drawing
  | hblank
  | vblank
  | off
deriving DecidableEq, Repr

/-- `DmaRequest` carried back from `Hdma::run` (its defining dma.rs revision
is not under src/; gpu.rs constructs it as `DmaRequest::new(src, dst, size)`). -/
structure DmaRequest where
  src : Nat
  dst : Nat
  size : Nat
deriving DecidableEq, Repr

/-- `Hdma` from gpu.rs. -/
structure Hdma where
  isOn : Bool
  src_low : Nat
  src_high : Nat
  dst_low : Nat
  dst_high : Nat
  src_wip : Nat
  dst_wip : Nat
  len : Nat
  hblank : Bool
deriving DecidableEq, Repr

/-- `Hdma::new` from gpu.rs. -/
def Hdma.new : Hdma :=
  { isOn := false, src_low := 0, src_high := 0, dst_low := 0, dst_high := 0
    src_wip := 0, dst_wip := 0, len := 0, hblank := false }

/-- `Hdma::start` (write HDMA5) from gpu.rs. -/
def Hdma.start (h : Hdma) (value : Nat) : Hdma :=
  if h.isOn && h.hblank && value &&& 0x80 = 0 then
    { h with isOn := false, hblank := false }
  else
    { h with
      hblank := value &&& 0x80 != 0
      len := value &&& 0x7f
      src_wip := (h.src_high * 256 + h.src_low) &&& 0xfff0
      dst_wip := ((h.dst_high * 256 + h.dst_low) &&& 0x1ff0) ||| 0x8000
      isOn := true }

/-- `Hdma::run` from gpu.rs (u8/u16 wrap-around written out; `overflowing_sub`
on the u8 length becomes the `len = 0` test). -/
def Hdma.run (h : Hdma) (hblankNow : Bool) : Option DmaRequest × Hdma :=
  if !h.isOn then (none, h)
  else if h.hblank && !hblankNow then (none, h)
  else
    let size := if h.hblank then 0x10 else (h.len + 1) * 0x10
    let req : DmaRequest := { src := h.src_wip, dst := h.dst_wip, size := size }
    let rem := if h.len = 0 then 0xff else h.len - 1
    let of := h.len = 0
    (some req,
     { h with
       src_wip := (h.src_wip + size) % 65536
       dst_wip := (h.dst_wip + size) % 65536
       len := if h.hblank then rem else 0xff
       isOn := if h.hblank then !of else false })

/-- `Gpu` from gpu.rs.  The pixel memories `vram`, `oam` and `cgb_ext` feed
only the renderer `draw(&self)`, which takes `&self` and mutates nothing, so
they are not part of this state-transition embedding. -/
structure Gpu where
  clocks : Nat
  lcd_status : LcdStatus
  mode : Mode
  ly : Nat
  lyc : Nat
  scy : Nat
  scx : Nat
  wx : Nat
  wy : Nat
  lcd_control : Nat
  hdma : Hdma
deriving DecidableEq, Repr

/-- `Gpu::new` from gpu.rs. -/
def Gpu.new : Gpu :=
  { clocks := 0, lcd_status := LcdStatus.ofBits 0, mode := Mode.off
    ly := 0, lyc := 0, scy := 0, scx := 0, wx := 0, wy := 0
    lcd_control := 0, hdma := Hdma.new }

/-- The mode `match` inside `Gpu::step`, yielding (ly, irq, clocks, mode).
`self.ly += 1` is a u8 increment, written `% 256`. -/
def gpuCase (g : Gpu) (irq clocks : Nat) : Nat × Nat × Nat × Mode :=
  match g.mode with
  | Mode.oamScan =>
    if 80 ≤ clocks then (g.ly, irq, clocks - 80, Mode.drawing)
    else (g.ly, irq, clocks, Mode.oamScan)
  | Mode.drawing =>
    if 172 ≤ clocks then
      let irq := if g.lcd_status.hblank_int then irq ||| intLCD else irq
      (g.ly, irq, clocks - 172, Mode.hblank)
    else (g.ly, irq, clocks, Mode.drawing)
  | Mode.hblank =>
    if 204 ≤ clocks then
      let ly := (g.ly + 1) % 256
      if 143 < ly then
        let irq := irq ||| intVBLANK
        let irq := if g.lcd_status.vblank_int then irq ||| intLCD else irq
        (ly, irq, clocks - 204, Mode.vblank)
      else
        let irq := if g.lcd_status.oam_int then irq ||| intLCD else irq
        (ly, irq, clocks - 204, Mode.oamScan)
    else (g.ly, irq, clocks, Mode.hblank)
  | Mode.vblank =>
    if 456 ≤ clocks then
      let ly := (g.ly + 1) % 256
      if 153 < ly then
        let irq := if g.lcd_status.oam_int then irq ||| intLCD else irq
        (0, irq, clocks - 456, Mode.oamScan)
      else (ly, irq, clocks - 456, Mode.vblank)
    else (g.ly, irq, clocks, Mode.vblank)
  | Mode.off => (g.ly, irq, 0, Mode.off)

/-- `Gpu::step` from gpu.rs.  The scanline produced by the read-only
`self.draw()` is not part of the state; the returned pair is the updated
GPU, the updated IF request mask, and the HDMA request. -/
def Gpu.step (g : Gpu) (time irq : Nat) : Gpu × Nat × Option DmaRequest :=
  let c := gpuCase g irq (g.clocks + time)
  let ly' := c.1
  let irq1 := c.2.1
  let clocks' := c.2.2.1
  let mode' := c.2.2.2
  let irq2 := if g.lcd_status.lyc_int && (g.lyc == ly') then irq1 ||| intLCD else irq1
  let enterHblank := decide (g.mode ≠ Mode.hblank ∧ mode' = Mode.hblank)
  let g' := { g with ly := ly', clocks := clocks', mode := mode' }
  let hr := g'.hdma.run enterHblank
  ({ g' with hdma := hr.2 }, irq2, hr.1)

/-- `Gpu::write_ctrl` (write LCDC, 0xff40) from gpu.rs: on a 0→1 transition
of bit 7 reset the clock counter and enter HBLANK; on 1→0 park in OFF; in
all cases install the new control byte and remove VBLANK from IF. -/
def Gpu.writeCtrl (g : Gpu) (value irq : Nat) : Gpu × Nat :=
  let oldOn := g.lcd_control.testBit 7
  let newOn := value.testBit 7
  let g :=
    if !oldOn && newOn then { g with clocks := 0, mode := Mode.hblank }
    else if oldOn && !newOn then { g with mode := Mode.off }
    else g
  let g := { g with lcd_control := value % 256 }
  (g, irq &&& 0xfe)

/-- The PPU invariant used for the amended C4: line bounds per mode,
LY at most 153, and "LCD off iff mode OFF". -/
def GpuInv (g : Gpu) : Prop :=
  ((g.mode = Mode.oamScan ∨ g.mode = Mode.drawing ∨ g.mode = Mode.hblank) → g.ly ≤ 143) ∧
  g.ly ≤ 153 ∧
  (g.lcd_control.testBit 7 = false ↔ g.mode = Mode.off)

instance (g : Gpu) : Decidable (GpuInv g) := by
  unfold GpuInv
  infer_instance

/-- The PPU after `Gpu::new` plus an LCDC write enabling the LCD. -/
def gpuAfterOn : Gpu := (Gpu.new.writeCtrl 0x80 0).1

/-- `gpuAfterOn` stepped through one full HBLANK period (204 clocks), which
increments LY to 1 and enters OAM scan. -/
def gpuAfterLine : Gpu := (gpuAfterOn.step 204 0).1

/-- `gpuAfterLine` after an LCDC write clearing bit 7 (LCD off). -/
def gpuOffMidFrame : Gpu × Nat := gpuAfterLine.writeCtrl 0x00 0

/- ===================== OAM DMA (src/core/src/dma.rs, src/core/src/mmu.rs) ===================== -/

/-- The condition of the assertion guarding the OAM DMA copy, from
`Dma::step` (dma.rs) and `Mmu::dma_step` (mmu.rs):
`assert!(self.src <= 0x80 || self.src >= 0x9f)`. -/
def dmaAssertCond (src : Nat) : Bool :=
  src ≤ 0x80 || 0x9f ≤ src

/-- The copy loop of `Mmu::dma_step`: for i in 0..n, read `src + i` and
write it to 0xfe00 + i (sequential; each read sees earlier writes). -/
def dmaCopy (mem : Nat → Nat) (src : Nat) : Nat → (Nat → Nat)
  | 0 => mem
  | Nat.succ i =>
    let m := dmaCopy mem src i
    let v := m ((src + i) % 65536)
    fun a => if a = (0xfe00 + i) % 65536 then v else m a

/-- `Mmu::dma_step` from mmu.rs over a flat byte memory, with the panicking
assertion embedded as `none`.  Returns the memory and the `dma.on` flag. -/
def dmaStep (isOn : Bool) (src : Nat) (mem : Nat → Nat) :
    Option ((Nat → Nat) × Bool) :=
  if isOn then
    if dmaAssertCond src then some (dmaCopy mem (src * 256) 0xa0, false)
    else none
  else some (mem, isOn)

/- ===================== APU (src/core/src/sound.rs) ===================== -/

/-- `Sweep` from sound.rs. -/
structure Sweep where
  enable : Bool
  freq : Nat
  time : Nat
  sub : Bool
  shift : Nat
  clock : Nat
deriving DecidableEq, Repr

/-- `Sweep::new` from sound.rs. -/
def Sweep.new (enable : Bool) (freq time : Nat) (sub : Bool) (shift : Nat) : Sweep :=
  { enable := enable, freq := freq, time := time, sub := sub, shift := shift, clock := 0 }

/-- `Sweep::freq` from sound.rs (named `freqNext`; `freq` is the field).
`saturating_sub`/`saturating_add` on usize become `Nat` subtraction and
plain addition (the upper saturation point is never reached: freq is reset
to 0 as soon as it passes 2048). -/
def Sweep.freqNext (s : Sweep) (rate : Nat) : Nat × Sweep :=
  if !s.enable || s.time = 0 || s.shift = 0 then (s.freq, s)
  else
    let interval := rate * s.time / 128
    let clock := s.clock + 1
    if interval ≤ clock then
      let clock := clock - interval
      let p := s.freq / 2 ^ s.shift
      let freq := if s.sub then s.freq - p else s.freq + p
      if 2048 ≤ freq ∨ freq = 0 then
        (0, { s with enable := false, freq := 0, clock := clock })
      else
        (freq, { s with freq := freq, clock := clock })
    else (s.freq, { s with clock := clock })

/-- `Envelop` from sound.rs. -/
structure Envelop where
  amp : Nat
  count : Nat
  inc : Bool
  clock : Nat
deriving DecidableEq, Repr

/-- `Envelop::new` from sound.rs. -/
def Envelop.new (amp count : Nat) (inc : Bool) : Envelop :=
  { amp := amp, count := count, inc := inc, clock := 0 }

/-- `Envelop::amp` from sound.rs (named `ampNext`; `amp` is the field). -/
def Envelop.ampNext (e : Envelop) (rate : Nat) : Nat × Envelop :=
  if e.amp = 0 then (0, e)
  else if e.count = 0 then (e.amp, e)
  else
    let interval := rate * e.count / 64
    let clock := e.clock + 1
    if interval ≤ clock then
      let clock := clock - interval
      let amp := if e.inc then min (e.amp + 1) 15 else e.amp - 1
      (amp, { e with amp := amp, clock := clock })
    else (e.amp, { e with clock := clock })

/-- `Counter` from sound.rs. -/
structure Counter where
  enable : Bool
  count : Nat
  base : Nat
  clock : Nat
deriving DecidableEq, Repr

/-- `Counter::new` from sound.rs. -/
def Counter.new (enable : Bool) (count base : Nat) : Counter :=
  { enable := enable, count := count, base := base, clock := 0 }

/-- `Counter::stop` from sound.rs. -/
def Counter.stop (c : Counter) (rate : Nat) : Bool × Counter :=
  if !c.enable then (false, c)
  else
    let deadline := rate * (c.base - c.count) / 256
    if deadline ≤ c.clock then (true, c)
    else (false, { c with clock := c.clock + 1 })

/-- `WaveIndex` from sound.rs. -/
structure WaveIndex where
  clock : Nat
  index : Nat
deriving DecidableEq, Repr

/-- `WaveIndex::new` from sound.rs. -/
def WaveIndex.new : WaveIndex :=
  { clock := 0, index := 0 }

/-- `WaveIndex::index` from sound.rs (named `next`; `index` is the field). -/
def WaveIndex.next (w : WaveIndex) (rate freq maxIdx : Nat) : Nat × WaveIndex :=
  let clock := w.clock + freq
  if rate ≤ clock then
    let clock := clock - rate
    let index := (w.index + 1) % maxIdx
    (index, { clock := clock, index := index })
  else (w.index, { w with clock := clock })

/-- `LFSR` from sound.rs. -/
structure LFSR where
  value : Nat
  short : Bool
deriving DecidableEq, Repr

/-- `LFSR::new` from sound.rs. -/
def LFSR.new (short : Bool) : LFSR :=
  { value := 0xdead, short := short }

/-- `LFSR::high` from sound.rs. -/
def LFSR.high (l : LFSR) : Bool :=
  l.value &&& 1 = 0

/-- `LFSR::update` from sound.rs. -/
def LFSR.update (l : LFSR) : LFSR :=
  if l.short then
    let v := l.value &&& 0xff
    let bit := (v &&& 0x0001) ^^^ ((v &&& 0x0004) >>> 2) ^^^
               ((v &&& 0x0008) >>> 3) ^^^ ((v &&& 0x0010) >>> 5)
    { l with value := (v >>> 1) ||| (bit <<< 7) }
  else
    let v := l.value
    let bit := (v &&& 0x0001) ^^^ ((v &&& 0x0004) >>> 2) ^^^
               ((v &&& 0x0008) >>> 3) ^^^ ((v &&& 0x0020) >>> 5)
    { l with value := ((v >>> 1) ||| (bit <<< 15)) % 65536 }

/-- `RandomWave` from sound.rs. -/
structure RandomWave where
  lfsr : LFSR
  clock : Nat
deriving DecidableEq, Repr

/-- `RandomWave::new` from sound.rs. -/
def RandomWave.new (short : Bool) : RandomWave :=
  { lfsr := LFSR.new short, clock := 0 }

/-- `RandomWave::high` from sound.rs. -/
def RandomWave.high (w : RandomWave) (rate freq : Nat) : Bool × RandomWave :=
  let clock := w.clock + freq
  if rate ≤ clock then
    let w := { lfsr := w.lfsr.update, clock := clock - rate }
    (w.lfsr.high, w)
  else
    let w := { w with clock := clock }
    (w.lfsr.high, w)

/-- `Tone` (channel 1/2 registers) from sound.rs. -/
structure Tone where
  sweep_time : Nat
  sweep_sub : Bool
  sweep_shift : Nat
  sound_len : Nat
  wave_duty : Nat
  env_init : Nat
  env_inc : Bool
  env_count : Nat
  counter : Bool
  freq : Nat
deriving DecidableEq, Repr

/-- `Tone::default` from sound.rs. -/
def Tone.default : Tone :=
  { sweep_time := 0, sweep_sub := false, sweep_shift := 0, sound_len := 0
    wave_duty := 0, env_init := 0, env_inc := false, env_count := 0
    counter := false, freq := 0 }

/-- `Tone::on_write` from sound.rs: update the register mirror; the returned
flag is the restart trigger (bit 7 of the base+4 register). -/
def Tone.onWrite (t : Tone) (base addr value : Nat) : Tone × Bool :=
  if addr = base then
    ({ t with sweep_time := (value >>> 4) &&& 0x7
              sweep_sub := value &&& 0x08 != 0
              sweep_shift := value &&& 0x07 }, false)
  else if addr = base + 1 then
    ({ t with wave_duty := value >>> 6, sound_len := value &&& 0x1f }, false)
  else if addr = base + 2 then
    ({ t with env_init := value >>> 4
              env_inc := value &&& 0x08 != 0
              env_count := value &&& 0x7 }, false)
  else if addr = base + 3 then
    ({ t with freq := (t.freq &&& 0x700) ||| (value % 256) }, false)
  else if addr = base + 4 then
    ({ t with counter := value &&& 0x40 != 0
              freq := (t.freq &&& 0xff) ||| ((value &&& 0x7) <<< 8) },
     value &&& 0x80 != 0)
  else (t, false)

/-- `ToneStream` from sound.rs. -/
structure ToneStream where
  tone : Tone
  sweep : Sweep
  env : Envelop
  counter : Counter
  index : WaveIndex
deriving DecidableEq, Repr

/-- `ToneStream::new` from sound.rs. -/
def ToneStream.new (t : Tone) (sweep : Bool) : ToneStream :=
  let freq := 131072 / (2048 - t.freq)
  { tone := t
    sweep := Sweep.new sweep freq t.sweep_time t.sweep_sub t.sweep_shift
    env := Envelop.new t.env_init t.env_count t.env_inc
    counter := Counter.new t.counter t.sound_len 64
    index := WaveIndex.new }

/-- `Stream::next` for `ToneStream` from sound.rs. -/
def ToneStream.next (t : ToneStream) (rate : Nat) : Nat × ToneStream :=
  let s := t.counter.stop rate
  if s.1 then (0, { t with counter := s.2 })
  else
    let a := t.env.ampNext rate
    let f := t.sweep.freqNext rate
    let duty := if t.tone.wave_duty = 0 then 0
      else if t.tone.wave_duty = 1 then 1
      else if t.tone.wave_duty = 2 then 3
      else 5
    let i := t.index.next rate (f.1 * 8) 8
    let out := if i.1 ≤ duty then 0 else a.1
    (out, { t with counter := s.2, env := a.2, sweep := f.2, index := i.2 })

/-- `Wave` (channel 3 registers) from sound.rs; the 16-byte wave RAM is a
byte-valued function. -/
structure Wave where
  enable : Bool
  sound_len : Nat
  amp_shift : Nat
  counter : Bool
  freq : Nat
  wavebuf : Nat → Nat

/-- `WaveStream` from sound.rs. -/
structure WaveStream where
  wave : Wave
  counter : Counter
  index : WaveIndex

/-- `WaveStream::new` from sound.rs. -/
def WaveStream.new (w : Wave) : WaveStream :=
  { wave := w, counter := Counter.new w.counter w.sound_len 256, index := WaveIndex.new }

/-- `Stream::next` for `WaveStream` from sound.rs.  `samples` is
`wavebuf.len() * 2 = 32`; `amp_shift` is below 4 by construction
(`(value >> 5) & 0x3`), so the final arm of the `match` is its 3 case. -/
def WaveStream.next (w : WaveStream) (rate : Nat) : Nat × WaveStream :=
  if !w.wave.enable then (0, w)
  else
    let s := w.counter.stop rate
    if s.1 then (0, { w with counter := s.2 })
    else
      let samples := 32
      let freq := 65536 / (2048 - w.wave.freq)
      let i := w.index.next rate (freq * samples) samples
      let amp := if i.1 % 2 = 0 then w.wave.wavebuf (i.1 / 2) >>> 4
                 else w.wave.wavebuf (i.1 / 2) &&& 0xf
      let amp := if w.wave.amp_shift = 0 then 0
        else if w.wave.amp_shift = 1 then amp
        else if w.wave.amp_shift = 2 then amp >>> 1
        else amp >>> 2
      (amp, { w with counter := s.2, index := i.2 })

/-- `Noise` (channel 4 registers) from sound.rs. -/
structure Noise where
  sound_len : Nat
  env_init : Nat
  env_inc : Bool
  env_count : Nat
  shift_freq : Nat
  step : Bool
  div_freq : Nat
  counter : Bool
deriving DecidableEq, Repr

/-- `NoiseStream` from sound.rs. -/
structure NoiseStream where
  noise : Noise
  env : Envelop
  counter : Counter
  wave : RandomWave
deriving DecidableEq, Repr

/-- `NoiseStream::new` from sound.rs. -/
def NoiseStream.new (n : Noise) : NoiseStream :=
  { noise := n
    env := Envelop.new n.env_init n.env_count n.env_inc
    counter := Counter.new n.counter n.sound_len 64
    wave := RandomWave.new n.step }

/-- `Stream::next` for `NoiseStream` from sound.rs. -/
def NoiseStream.next (n : NoiseStream) (rate : Nat) : Nat × NoiseStream :=
  let s := n.counter.stop rate
  if s.1 then (0, { n with counter := s.2 })
  else
    let a := n.env.ampNext rate
    let r := n.noise.div_freq
    let sh := n.noise.shift_freq
    let freq := if r = 0 then 524288 * 5 / 10 / 2 ^ (sh + 1)
                else 524288 / r / 2 ^ (sh + 1)
    let h := n.wave.high rate freq
    (if h.1 then a.1 else 0, { n with counter := s.2, env := a.2, wave := h.2 })

/-- `Unit<T>` from sound.rs (named `SndUnit`; `Unit` is taken in Lean). -/
structure SndUnit (α : Type) where
  stream : Option α
  volume : Nat

/-- `Unit::on` from sound.rs. -/
def SndUnit.isOn {α : Type} (u : SndUnit α) : Bool :=
  u.stream.isSome

/-- `Unit::update` from sound.rs. -/
def SndUnit.update {α : Type} (u : SndUnit α) (s : Option α) : SndUnit α :=
  { u with stream := s }

/-- `Unit::next` from sound.rs, parameterized by the channel's `Stream::next`. -/
def SndUnit.next {α : Type} (f : α → Nat → Nat × α) (u : SndUnit α) (rate : Nat) :
    (Nat × Nat) × SndUnit α :=
  match u.stream with
  | some s => let p := f s rate; ((p.1, u.volume), { u with stream := some p.2 })
  | none => ((0, u.volume), u)

/-- `MixerStream` from sound.rs. -/
structure MixerStream where
  tone1 : SndUnit ToneStream
  tone2 : SndUnit ToneStream
  wave : SndUnit WaveStream
  noise : SndUnit NoiseStream

/-- `MixerStream::MAX` from sound.rs. -/
def MixerStream.MAX : Nat := 840 * 3

/-- `Stream::next` for `MixerStream` from sound.rs: sum the four channels'
`amplitude * volume`, halving the noise; the code asserts the sum is ≤ 840. -/
def MixerStream.next (m : MixerStream) (rate : Nat) : Nat × MixerStream :=
  let p1 := m.tone1.next ToneStream.next rate
  let p2 := m.tone2.next ToneStream.next rate
  let p3 := m.wave.next WaveStream.next rate
  let p4 := m.noise.next NoiseStream.next rate
  let vol := p1.1.1 * p1.1.2 + p2.1.1 * p2.1.2 + p3.1.1 * p3.1.2 +
             p4.1.1 * p4.1.2 / 2
  (vol, { tone1 := p1.2, tone2 := p2.2, wave := p3.2, noise := p4.2 })

/-- `Mixer` (NR50/NR51/NR52 state) from sound.rs. -/
structure Mixer where
  so1_volume : Nat
  so2_volume : Nat
  so_mask : Nat
  enable : Bool
deriving DecidableEq, Repr

/-- `Mixer::get_volume` from sound.rs. -/
def Mixer.getVolume (mx : Mixer) (id : Nat) : Nat :=
  let mask := 1 <<< id
  let v1 := if mx.so_mask &&& mask != 0 then mx.so1_volume else 0
  let v2 := if mx.so_mask &&& (mask <<< 4) != 0 then mx.so2_volume else 0
  v1 + v2

/-- `Mixer::update_volume` from sound.rs. -/
def Mixer.updateVolume (mx : Mixer) (s : MixerStream) : MixerStream :=
  { s with tone1 := { s.tone1 with volume := mx.getVolume 0 }
           tone2 := { s.tone2 with volume := mx.getVolume 1 }
           wave := { s.wave with volume := mx.getVolume 2 }
           noise := { s.noise with volume := mx.getVolume 3 } }

/-- `Mixer::on_write` from sound.rs (NR50 0xff24, NR51 0xff25, NR52 0xff26). -/
def Mixer.onWrite (mx : Mixer) (addr value : Nat) (s : MixerStream) :
    Mixer × MixerStream :=
  if addr = 0xff24 then
    let mx := { mx with so1_volume := (value &&& 0x70) >>> 4
                        so2_volume := value &&& 0x07 }
    (mx, mx.updateVolume s)
  else if addr = 0xff25 then
    let mx := { mx with so_mask := value % 256 }
    (mx, mx.updateVolume s)
  else if addr = 0xff26 then
    let mx := { mx with enable := value &&& 0x80 != 0 }
    (mx, mx.updateVolume s)
  else (mx, s)

/- ===================== APU mixer revision (src/core/src/apu/mixer.rs) ===================== -/

/-- `Unit<T>` from apu/mixer.rs. -/
structure ApuUnit (α : Type) where
  stream : Option α
  volume : Nat

/-- `Unit::clear` from apu/mixer.rs. -/
def ApuUnit.clear {α : Type} (u : ApuUnit α) : ApuUnit α :=
  { u with stream := none }

/-- `Unit::next` from apu/mixer.rs, parameterized by the channel's
`Stream::next` (the apu channel modules are not under src/). -/
def ApuUnit.next {α : Type} (f : α → Nat → Nat × α) (u : ApuUnit α) (rate : Nat) :
    (Nat × Nat) × ApuUnit α :=
  match u.stream with
  | some s => let p := f s rate; ((p.1, u.volume), { u with stream := some p.2 })
  | none => ((0, u.volume), u)

/-- `MixerStream` from apu/mixer.rs, generic over the channel stream types
(`ToneStream`, `WaveStream`, `NoiseStream` of the absent apu modules). -/
structure ApuMixerStream (α β γ : Type) where
  tone1 : ApuUnit α
  tone2 : ApuUnit α
  wave : ApuUnit β
  noise : ApuUnit γ
  enable : Bool

/-- `Stream::next` for the apu/mixer.rs `MixerStream`: identical mixing sum,
but gated on the master enable flag — a disabled mixer returns 0. -/
def ApuMixerStream.next {α β γ : Type} (fa : α → Nat → Nat × α)
    (fb : β → Nat → Nat × β) (fc : γ → Nat → Nat × γ)
    (m : ApuMixerStream α β γ) (rate : Nat) : Nat × ApuMixerStream α β γ :=
  if m.enable then
    let p1 := m.tone1.next fa rate
    let p2 := m.tone2.next fa rate
    let p3 := m.wave.next fb rate
    let p4 := m.noise.next fc rate
    let vol := p1.1.1 * p1.1.2 + p2.1.1 * p2.1.2 + p3.1.1 * p3.1.2 +
               p4.1.1 * p4.1.2 / 2
    (vol, { m with tone1 := p1.2, tone2 := p2.2, wave := p3.2, noise := p4.2 })
  else (0, m)

/-- `Mixer` from apu/mixer.rs. -/
structure ApuMixer where
  ctrl : Nat
  so1_volume : Nat
  so2_volume : Nat
  so_mask : Nat
  enable : Bool
deriving DecidableEq, Repr

/-- `Mixer::get_volume` from apu/mixer.rs. -/
def apuGetVolume (id so_mask so1_volume so2_volume : Nat) : Nat :=
  let mask := 1 <<< id
  let v1 := if so_mask &&& mask != 0 then so1_volume else 0
  let v2 := if so_mask &&& (mask <<< 4) != 0 then so2_volume else 0
  v1 + v2

/-- `Mixer::update_stream` from apu/mixer.rs: propagate the enable flag;
volumes are recomputed only while enabled. -/
def ApuMixer.updateStream {α β γ : Type} (mx : ApuMixer)
    (s : ApuMixerStream α β γ) : ApuMixerStream α β γ :=
  let s := { s with enable := mx.enable }
  if mx.enable then
    { s with
      tone1 := { s.tone1 with volume := apuGetVolume 0 mx.so_mask mx.so1_volume mx.so2_volume }
      tone2 := { s.tone2 with volume := apuGetVolume 1 mx.so_mask mx.so1_volume mx.so2_volume }
      wave := { s.wave with volume := apuGetVolume 2 mx.so_mask mx.so1_volume mx.so2_volume }
      noise := { s.noise with volume := apuGetVolume 3 mx.so_mask mx.so1_volume mx.so2_volume } }
  else s

/-- `Mixer::enable` from apu/mixer.rs. -/
def ApuMixer.setEnable {α β γ : Type} (mx : ApuMixer) (enable : Bool)
    (s : ApuMixerStream α β γ) : ApuMixer × ApuMixerStream α β γ :=
  let mx := { mx with enable := enable }
  (mx, mx.updateStream s)

/- ===================== MBC (src/core/src/mbc.rs) ===================== -/

/-- `Mbc1` from mbc.rs.  The borrowed ROM slice is a byte function with its
length; the 0x8000-byte cartridge RAM is a byte function. -/
structure Mbc1 where
  rom : Nat → Nat
  romLen : Nat
  ram : Nat → Nat
  rom_bank : Nat
  ram_bank : Nat
  ram_enable : Bool
  ram_select : Bool

/-- `Mbc1::on_read` from mbc.rs; `none` is the `unreachable!` arm. -/
def Mbc1.onRead (m : Mbc1) (addr : Nat) : Option Nat :=
  if addr ≤ 0x3fff then some (m.rom addr)
  else if addr ≤ 0x7fff then
    let rb := max m.rom_bank 1
    let rb := if rb = 0x20 ∨ rb = 0x40 ∨ rb = 0x60 then rb + 1 else rb
    some (m.rom ((rb * 0x4000 + (addr - 0x4000)) &&& (m.romLen - 1)))
  else if 0xa000 ≤ addr ∧ addr ≤ 0xbfff then
    if m.ram_enable then
      some (m.ram ((m.ram_bank * 0x2000 + (addr - 0xa000)) &&& (m.romLen - 1)))
    else
      some 0
  else none

/-- `Mbc1::on_write` from mbc.rs; the boolean records whether
`hw.save_ram` was invoked; `none` is the `unimplemented!` arm. -/
def Mbc1.onWrite (m : Mbc1) (addr value : Nat) : Option (Mbc1 × Bool) :=
  if addr ≤ 0x1fff then
    if value &&& 0xf = 0x0a then some ({ m with ram_enable := true }, false)
    else some ({ m with ram_enable := false }, true)
  else if addr ≤ 0x3fff then
    some ({ m with rom_bank := (m.rom_bank &&& (2^64 - 1 - 0x1f)) ||| (value &&& 0x1f) }, false)
  else if addr ≤ 0x5fff then
    if m.ram_select then some ({ m with ram_bank := value &&& 0x3 }, false)
    else some ({ m with rom_bank := (m.rom_bank &&& (2^64 - 1 - 0x60)) ||| ((value &&& 0x3) <<< 5) }, false)
  else if addr ≤ 0x7fff then
    if value = 0x00 then some ({ m with ram_select := false }, false)
    else if value = 0x01 then some ({ m with ram_select := true }, false)
    else none
  else if 0xa000 ≤ addr ∧ addr ≤ 0xbfff then
    if m.ram_enable then
      let idx := m.ram_bank * 0x2000 + (addr - 0xa000)
      some ({ m with ram := fun x => if x = idx then value % 256 else m.ram x }, false)
    else
      some (m, false)
  else none

/-- `Mbc3` from mbc.rs. -/
structure Mbc3 where
  rom : Nat → Nat
  ram : Nat → Nat
  rom_bank : Nat
  enable : Bool
  select : Nat
  rtc_secs : Nat
  rtc_mins : Nat
  rtc_hours : Nat
  rtc_day_low : Nat
  rtc_day_high : Nat
  epoch : Nat
  prelatch : Bool

/-- `Mbc3::on_read` from mbc.rs; `none` covers the `unimplemented!` selector
arm and the `unreachable!` arm.  Note: the 0xa000–0xbfff arm never consults
`enable`. -/
def Mbc3.onRead (m : Mbc3) (addr : Nat) : Option Nat :=
  if addr ≤ 0x3fff then some (m.rom addr)
  else if addr ≤ 0x7fff then
    some (m.rom ((max m.rom_bank 1) * 0x4000 + (addr - 0x4000)))
  else if 0xa000 ≤ addr ∧ addr ≤ 0xbfff then
    if m.select ≤ 0x03 then some (m.ram (m.select * 0x2000 + (addr - 0xa000)))
    else if m.select = 0x08 then some m.rtc_secs
    else if m.select = 0x09 then some m.rtc_mins
    else if m.select = 0x0a then some m.rtc_hours
    else if m.select = 0x0b then some m.rtc_day_low
    else if m.select = 0x0c then some m.rtc_day_high
    else none
  else none

/-- `Mbc3::day` from mbc.rs (the source combines the two day bytes with
`&` rather than `|`; embedded as written). -/
def Mbc3.day (m : Mbc3) : Nat :=
  ((m.rtc_day_high &&& 1) <<< 8) &&& m.rtc_day_low

/-- `Mbc3::dhms_to_secs` from mbc.rs. -/
def Mbc3.dhmsToSecs (m : Mbc3) : Nat :=
  (m.day * 24 + m.rtc_hours) * 3600 + m.rtc_mins * 60 + m.rtc_secs

/-- `Mbc3::secs_to_dhms` from mbc.rs. -/
def Mbc3.secsToDhms (m : Mbc3) (secs : Nat) : Mbc3 :=
  { m with
    rtc_secs := secs % 60
    rtc_mins := (secs / 60) % 60
    rtc_hours := (secs / 3600) % 24
    rtc_day_low := (secs / (3600 * 24)) % 256
    rtc_day_high := (m.rtc_day_high &&& (2^64 - 2)) ||| ((secs / (3600 * 24)) >>> 8) &&& 1 }

/-- `Mbc3::latch` from mbc.rs; `clockMicros` is the host `hw.clock()` value;
`epoch(hw)` is `clock / 1_000_000`.  `new_epoch - self.epoch` is a u64
subtraction; negative host clock jumps would panic in Rust and truncate to
0 here. -/
def Mbc3.latch (m : Mbc3) (clockMicros : Nat) : Mbc3 :=
  let newEpoch := if m.rtc_day_high &&& 0x40 = 0 then clockMicros / 1000000 else m.epoch
  let elapsed := newEpoch - m.epoch
  let lastDay := m.day
  let lastSecs := m.dhmsToSecs
  let m1 := m.secsToDhms (lastSecs + elapsed)
  let m2 := if m1.day < lastDay then { m1 with rtc_day_high := m1.rtc_day_high ||| 0x80 } else m1
  { m2 with epoch := newEpoch }

/-- `Mbc3::on_write` from mbc.rs; the boolean records whether `hw.save_ram`
was invoked; `none` covers the `unimplemented!` arms.  Note: the
0xa000–0xbfff arm never consults `enable`. -/
def Mbc3.onWrite (m : Mbc3) (addr value clockMicros : Nat) : Option (Mbc3 × Bool) :=
  if addr ≤ 0x1fff then
    if value = 0x00 then some ({ m with enable := false }, false)
    else if value = 0x0a then some ({ m with enable := true }, false)
    else some (m, false)
  else if addr ≤ 0x3fff then
    some ({ m with rom_bank := value &&& 0x7f }, false)
  else if addr ≤ 0x5fff then
    some ({ m with select := value % 256 }, true)
  else if addr ≤ 0x7fff then
    if m.prelatch then
      let m := if value = 0x01 then m.latch clockMicros else m
      some ({ m with prelatch := false }, false)
    else if value = 0x00 then some ({ m with prelatch := true }, false)
    else some (m, false)
  else if 0xa000 ≤ addr ∧ addr ≤ 0xbfff then
    if m.select ≤ 0x03 then
      let idx := m.select * 0x2000 + (addr - 0xa000)
      some ({ m with ram := fun x => if x = idx then value % 256 else m.ram x }, false)
    else if m.select = 0x08 then
      some ({ m with rtc_secs := value % 256, epoch := clockMicros / 1000000 }, false)
    else if m.select = 0x09 then
      some ({ m with rtc_mins := value % 256, epoch := clockMicros / 1000000 }, false)
    else if m.select = 0x0a then
      some ({ m with rtc_hours := value % 256, epoch := clockMicros / 1000000 }, false)
    else if m.select = 0x0b then
      some ({ m with rtc_day_low := value % 256, epoch := clockMicros / 1000000 }, false)
    else if m.select = 0x0c then
      some ({ m with rtc_day_high := value % 256, epoch := clockMicros / 1000000 }, false)
    else none
  else none

/- ===================== Concrete states for witnesses and counterexamples ===================== -/

/-- A machine with zeroed flat memory and empty step log, for instantiating
the CPU theorems at concrete interrupt-controller states. -/
def mkMachine (cpu : CpuState) (e r : Ints) : Machine :=
  { cpu := cpu, enable := e, request := r, ram := fun _ => 0, log := [] }

/-- An MBC1 with the RAM-enable latch off (zero ROM, zero RAM, 32 KiB ROM). -/
def mbc1Disabled : Mbc1 :=
  { rom := fun _ => 0, romLen := 0x8000, ram := fun _ => 0
    rom_bank := 0, ram_bank := 0, ram_enable := false, ram_select := false }

/-- An MBC3 with the RAM/RTC-enable latch off whose cartridge RAM holds 5
everywhere; bank/RTC selector 0. -/
def mbc3Disabled : Mbc3 :=
  { rom := fun _ => 0, ram := fun _ => 5, rom_bank := 0, enable := false
    select := 0, rtc_secs := 0, rtc_mins := 0, rtc_hours := 0
    rtc_day_low := 0, rtc_day_high := 0, epoch := 0, prelatch := false }

/-- A timer in steady state: DIV countdown at 252 of 256, TIMA at 255 with
TMA = 7, TAC = 0b101 (enabled, 262144 Hz → 16-clock period), TIMA countdown
at 12 of 16. -/
def timerW : Timer :=
  { div := 3, div_clocks := 252, tim := 255, tim_clocks := 12
    tim_load := 7, ctrl := 5 }

/-- The channel-state invariant of the sound.rs mixer: per-channel volume
at most 14 (NR50 gives each side at most 7) and envelope amplitudes at most
15; wave RAM holds bytes. -/
def MixInv (m : MixerStream) : Prop :=
  m.tone1.volume ≤ 14 ∧ m.tone2.volume ≤ 14 ∧
  m.wave.volume ≤ 14 ∧ m.noise.volume ≤ 14 ∧
  m.tone1.stream.elim True (fun t => t.env.amp ≤ 15) ∧
  m.tone2.stream.elim True (fun t => t.env.amp ≤ 15) ∧
  m.wave.stream.elim True (fun w => ∀ i, w.wave.wavebuf i ≤ 255) ∧
  m.noise.stream.elim True (fun n => n.env.amp ≤ 15)

/-- A channel-1 register state with full envelope volume. -/
def toneLoud : Tone :=
  { Tone.default with env_init := 15 }

/-- The running stream `ToneStream::new` builds from `toneLoud`. -/
def toneLoudStream : ToneStream :=
  ToneStream.new toneLoud true

/-- A mixer stream with channel 1 active at volume 14 and the other three
channels off. -/
def mixLoud : MixerStream :=
  { tone1 := { stream := some toneLoudStream, volume := 14 }
    tone2 := { stream := none, volume := 0 }
    wave := { stream := none, volume := 0 }
    noise := { stream := none, volume := 0 } }

/-- NR50 = 0x77 and NR51 routing channel 1 to both sides, master enabled. -/
def mixerLoud : Mixer :=
  { so1_volume := 7, so2_volume := 7, so_mask := 0x11, enable := true }

/-- The result of writing 0x00 to NR52 (master enable low) on the loud
mixer state, through sound.rs `Mixer::on_write`. -/
def nr52DisableResult : Mixer × MixerStream :=
  Mixer.onWrite mixerLoud 0xff26 0x00 mixLoud

/- ===================== Theorems ===================== -/

/-- `Ic::check(false)` (peek) leaves the request state unchanged, and under
`anyPending` it yields the lowest-numbered enabled-and-pending vector. -/
theorem icCheck_peek (e r : Ints) (h : anyPending e r = true) :
    icCheck false e r = (some (lowestVec e r), r) := by
  obtain ⟨ev, el, et, es, ej⟩ := e
  obtain ⟨rv, rl, rt, rs, rj⟩ := r
  revert h
  cases ev <;> cases el <;> cases et <;> cases es <;> cases ej <;>
    cases rv <;> cases rl <;> cases rt <;> cases rs <;> cases rj <;> decide

/-- `Ic::check(false)` never changes the request state. -/
theorem icCheck_peek_state (e r : Ints) : (icCheck false e r).2 = r := by
  obtain ⟨ev, el, et, es, ej⟩ := e
  obtain ⟨rv, rl, rt, rs, rj⟩ := r
  cases ev <;> cases el <;> cases et <;> cases es <;> cases ej <;>
    cases rv <;> cases rl <;> cases rt <;> cases rs <;> cases rj <;> decide

/-- `Ic::check(true)` (poll) returns the lowest-numbered enabled-and-pending
vector and clears exactly that request bit. -/
theorem icCheck_pop (e r : Ints) (h : anyPending e r = true) :
    icCheck true e r = (some (lowestVec e r), clearLowest e r) := by
  obtain ⟨ev, el, et, es, ej⟩ := e
  obtain ⟨rv, rl, rt, rs, rj⟩ := r
  revert h
  cases ev <;> cases el <;> cases et <;> cases es <;> cases ej <;>
    cases rv <;> cases rl <;> cases rt <;> cases rs <;> cases rj <;> decide

/-- `peek_int_vec` on the machine: returns the lowest pending vector and
leaves the whole machine unchanged. -/
theorem peekIntVec_eq (m : Machine) (h : anyPending m.enable m.request = true) :
    m.peekIntVec = (some (lowestVec m.enable m.request), m) := by
  simp [Machine.peekIntVec, icCheck_peek _ _ h, icCheck_peek_state]

/-- C10: waking the CPU from HALT with IME false and an enabled-and-pending
interrupt consumes 4 cycles and clears HALT, while IE, every IF bit, PC, SP
and memory are left unchanged — the wake-up check uses the non-consuming
peek of the interrupt controller. -/
theorem C10_halt_wakeup_nonconsuming (m : Machine) (h1 : m.cpu.ime = false)
    (h2 : m.cpu.halt = true) (h3 : anyPending m.enable m.request = true) :
    (m.checkInterrupt).cpu.halt = false ∧
    (m.checkInterrupt).enable = m.enable ∧
    (m.checkInterrupt).request = m.request ∧
    (m.checkInterrupt).log = m.log ++ [4] ∧
    (m.checkInterrupt).cpu.cycles = (m.cpu.cycles + 4) % 2 ^ 64 ∧
    (m.checkInterrupt).cpu.pc = m.cpu.pc ∧
    (m.checkInterrupt).cpu.sp = m.cpu.sp ∧
    (m.checkInterrupt).cpu.ime = false ∧
    (m.checkInterrupt).ram = m.ram := by
  unfold Machine.checkInterrupt
  rw [peekIntVec_eq m h3]
  simp [h1, h2, Machine.step]

/-- C10 witness: the wake-up at a concrete machine (IME off, HALT on,
timer enabled and pending). -/
theorem C10_halt_wakeup_nonconsuming_witness :
    (mkMachine { CpuState.new with ime := false, halt := true }
      (Ints.set 0x04) (Ints.set 0x04)).checkInterrupt.cpu.halt = false ∧
    ((mkMachine { CpuState.new with ime := false, halt := true }
      (Ints.set 0x04) (Ints.set 0x04)).checkInterrupt.request).timer = true := by
  have h := C10_halt_wakeup_nonconsuming
    (mkMachine { CpuState.new with ime := false, halt := true }
      (Ints.set 0x04) (Ints.set 0x04)) rfl rfl (by decide)
  exact ⟨h.1, by rw [h.2.2.1]; decide⟩

/-- C3: executing HALT with IME false while some interrupt is enabled and
pending sets HALT_BUG instead of the HALT state (leaving IF untouched), and
a set HALT_BUG makes the next instruction fetch skip the PC increment
exactly once, so the byte at PC is fetched twice — the fetch after that
reads the same address and then increments PC. -/
theorem C3_halt_bug (m : Machine) (h1 : m.cpu.ime = false)
    (h2 : anyPending m.enable m.request = true) :
    ((m.haltOp).cpu.halt_bug = true ∧
     (m.haltOp).cpu.halt = m.cpu.halt ∧
     (m.haltOp).request = m.request ∧
     (m.haltOp).cpu.pc = m.cpu.pc) ∧
    (∀ m2 : Machine, m2.cpu.halt_bug = true →
      m2.prefetch.1 = m2.ram m2.cpu.pc ∧
      m2.prefetch.2.cpu.pc = m2.cpu.pc ∧
      m2.prefetch.2.cpu.halt_bug = false ∧
      m2.prefetch.2.ram = m2.ram ∧
      m2.prefetch.2.prefetch.1 = m2.ram m2.cpu.pc ∧
      m2.prefetch.2.prefetch.2.cpu.pc = (m2.cpu.pc + 1) % 65536) := by
  constructor
  · unfold Machine.haltOp
    rw [peekIntVec_eq m h2]
    simp [h1]
  · intro m2 hbug
    simp [Machine.prefetch, Machine.incPc, hbug]

/-- C3 witness: a concrete HALT at IME false with the VBLANK interrupt
enabled and pending, followed by the double fetch. -/
theorem C3_halt_bug_witness :
    ((mkMachine { CpuState.new with ime := false }
        (Ints.set 0x01) (Ints.set 0x01)).haltOp.cpu.halt_bug = true ∧
     (mkMachine { CpuState.new with ime := false }
        (Ints.set 0x01) (Ints.set 0x01)).haltOp.cpu.halt = false) ∧
    (mkMachine { CpuState.new with halt_bug := true }
        (Ints.set 0) (Ints.set 0)).prefetch.2.cpu.pc = 0 := by
  have h1 := C3_halt_bug
    (mkMachine { CpuState.new with ime := false } (Ints.set 0x01) (Ints.set 0x01))
    rfl (by decide)
  have h2 := (h1.2 (mkMachine { CpuState.new with halt_bug := true }
    (Ints.set 0) (Ints.set 0)) rfl)
  exact ⟨⟨h1.1.1, by rw [h1.1.2.1]; rfl⟩, by rw [h2.2.1]; rfl⟩

/-- C2: with IME true and some interrupt enabled-and-pending, the end-of-
instruction check services the lowest-numbered such bit: HALT is cleared,
IME disabled, an 8-cycle internal wait is spent (the step log gains 8, the
16-bit push and the jump), PC is pushed at SP-2 little-endian, execution
jumps to that bit's vector, and exactly that IF bit is cleared while IE is
untouched. -/
theorem C2_interrupt_dispatch (m : Machine) (h1 : m.cpu.ime = true)
    (h2 : anyPending m.enable m.request = true) :
    (m.checkInterrupt).cpu.halt = false ∧
    (m.checkInterrupt).cpu.ime = false ∧
    (m.checkInterrupt).cpu.pc = lowestVec m.enable m.request ∧
    (m.checkInterrupt).enable = m.enable ∧
    (m.checkInterrupt).request = clearLowest m.enable m.request ∧
    (m.checkInterrupt).log =
      m.log ++ (if m.cpu.halt then [4, 8, 8, 4] else [8, 8, 4]) ∧
    (m.checkInterrupt).cpu.sp = (m.cpu.sp + 65534) % 65536 ∧
    (m.checkInterrupt).ram ((m.cpu.sp + 65534) % 65536) = m.cpu.pc % 256 ∧
    (m.checkInterrupt).ram ((m.cpu.sp + 65535) % 65536) = (m.cpu.pc / 256) % 256 := by
  have hpop : m.popIntVec =
      (some (lowestVec m.enable m.request),
       { m with request := clearLowest m.enable m.request }) := by
    simp [Machine.popIntVec, icCheck_pop _ _ h2]
  have hlo : ((m.cpu.sp + 65534) % 65536 + 1) % 65536 = (m.cpu.sp + 65535) % 65536 := by
    omega
  have hne : (m.cpu.sp + 65535) % 65536 ≠ (m.cpu.sp + 65534) % 65536 := by
    omega
  unfold Machine.checkInterrupt
  rw [hpop]
  simp only [h1]
  unfold Machine.interrupted Machine.push Machine.set16 Machine.sysSet16
    Machine.sysSet8 Machine.jump Machine.step
  by_cases hh : m.cpu.halt <;>
    simp [hh, hlo, hne, if_neg hne] <;>
    omega

/-- C2 witness: dispatch at a concrete machine where the SERIAL (bit 3) and
JOYPAD (bit 4) interrupts are pending but only SERIAL and JOYPAD are
enabled, from SP = 0xfffe and PC = 0x1234. -/
theorem C2_interrupt_dispatch_witness :
    anyPending (Ints.set 0x18) (Ints.set 0x18) = true ∧
    (mkMachine { CpuState.new with pc := 0x1234, sp := 0xfffe }
        (Ints.set 0x18) (Ints.set 0x18)).checkInterrupt.cpu.pc = 0x58 ∧
    (mkMachine { CpuState.new with pc := 0x1234, sp := 0xfffe }
        (Ints.set 0x18) (Ints.set 0x18)).checkInterrupt.cpu.sp = 0xfffc ∧
    (mkMachine { CpuState.new with pc := 0x1234, sp := 0xfffe }
        (Ints.set 0x18) (Ints.set 0x18)).checkInterrupt.request =
      { vblank := false, lcd := false, timer := false, serial := false, joypad := true } := by
  have h := C2_interrupt_dispatch
    (mkMachine { CpuState.new with pc := 0x1234, sp := 0xfffe }
      (Ints.set 0x18) (Ints.set 0x18)) rfl (by decide)
  refine ⟨by decide, ?_, ?_, ?_⟩
  · rw [h.2.2.1]; decide
  · rw [h.2.2.2.2.2.2.1]; decide
  · rw [h.2.2.2.2.1]; decide

/-- The DMA copy loop leaves addresses below OAM unchanged and fills
OAM byte i with the byte read from `src + i`, provided the source window
sits below OAM. -/
theorem dmaCopy_spec (mem : Nat → Nat) (src : Nat) (n : Nat)
    (hsrc : src + n ≤ 0xfe00) (hn : n ≤ 0xa0) :
    (∀ a, a < 0xfe00 → dmaCopy mem src n a = mem a) ∧
    (∀ i, i < n → dmaCopy mem src n (0xfe00 + i) = mem (src + i)) := by
  induction n with
  | zero => exact ⟨fun a _ => rfl, fun i hi => absurd hi (Nat.not_lt_zero i)⟩
  | succ k ih =>
    obtain ⟨ih1, ih2⟩ := ih (by omega) (by omega)
    have hk1 : (0xfe00 + k) % 65536 = 0xfe00 + k := by omega
    have hk2 : (src + k) % 65536 = src + k := by omega
    constructor
    · intro a ha
      simp only [dmaCopy, hk1, hk2]
      rw [if_neg (by omega)]
      exact ih1 a ha
    · intro i hi
      simp only [dmaCopy, hk1, hk2]
      by_cases hik : i = k
      · subst hik
        rw [if_pos rfl]
        exact ih1 (src + i) (by omega)
      · rw [if_neg (by omega)]
        exact ih2 i (by omega)

/-- For a source page the assertion admits and the claim covers
(v ≤ 0x80 here), `Mmu::dma_step` completes in one call: OAM byte i equals
the byte at `(v<<8) + i` and the `on` flag drops. -/
theorem dmaStep_ok (v : Nat) (mem : Nat → Nat) (hv : v ≤ 0x80) :
    ∃ p, dmaStep true v mem = some p ∧ p.2 = false ∧
      ∀ i, i < 0xa0 → p.1 (0xfe00 + i) = mem (v * 256 + i) := by
  have hc : dmaAssertCond v = true := by
    unfold dmaAssertCond
    simp
    omega
  refine ⟨(dmaCopy mem (v * 256) 0xa0, false), ?_, rfl, ?_⟩
  · unfold dmaStep
    rw [hc]
    simp
  · intro i hi
    exact (dmaCopy_spec mem (v * 256) 0xa0 (by omega) (by omega)).2 i hi

/-- Witness for `dmaStep_ok` at v = 0x50 over the memory `a % 256`. -/
theorem dmaStep_ok_witness :
    (0x50 ≤ 0x80) ∧
    ∃ p, dmaStep true 0x50 (fun a => a % 256) = some p ∧ p.2 = false ∧
      ∀ i, i < 0xa0 → p.1 (0xfe00 + i) = (0x50 * 256 + i) % 256 :=
  ⟨by decide, dmaStep_ok 0x50 (fun a => a % 256) (by decide)⟩

/-- C5: the OAM DMA assertion `src <= 0x80 || src >= 0x9f` is false at
source page 0x90 — a VRAM page within the claim's `v ≤ 0xDF` range — so
`Mmu::dma_step` panics instead of copying there. -/
theorem C5_dma_assert_rejects_vram :
    dmaAssertCond 0x90 = false ∧
    0x90 ≤ 0xdf ∧
    dmaStep true 0x90 (fun _ => 0) = none := by
  refine ⟨by decide, by decide, ?_⟩
  unfold dmaStep
  rw [show dmaAssertCond 0x90 = false from by decide]
  simp

/-- C9 counterexample: an MBC3 with the RAM-enable latch off still reads
the cartridge RAM byte (5, not 0) at 0xa000. -/
theorem C9_mbc3_ignores_ram_enable :
    mbc3Disabled.enable = false ∧
    Mbc3.onRead mbc3Disabled 0xa000 = some 5 ∧
    Mbc3.onRead mbc3Disabled 0xa000 ≠ some 0 := by
  refine ⟨rfl, ?_, ?_⟩ <;> decide

/-- C9 amended: with the RAM-enable latch off, MBC1 reads of 0xa000–0xbfff
return 0 and writes are discarded; MBC3's reads there are independent of
the latch, and its writes modify cartridge RAM even while disabled. -/
theorem C9_disabled_ram_amended (addr v : Nat) (h1 : 0xa000 ≤ addr)
    (h2 : addr ≤ 0xbfff) :
    (∀ m : Mbc1, m.ram_enable = false →
      m.onRead addr = some 0 ∧ m.onWrite addr v = some (m, false)) ∧
    (∀ m3 : Mbc3, ∀ b : Bool,
      Mbc3.onRead { m3 with enable := b } addr = Mbc3.onRead m3 addr) ∧
    (∀ m3 : Mbc3, ∀ clk, m3.select = 0 →
      ∃ p, Mbc3.onWrite m3 addr v clk = some p ∧
        p.1.ram (addr - 0xa000) = v % 256 ∧ p.1.enable = m3.enable) := by
  refine ⟨?_, ?_, ?_⟩
  · intro m hm
    constructor
    · unfold Mbc1.onRead
      rw [if_neg (by omega), if_neg (by omega), if_pos (by omega), hm]
      simp
    · unfold Mbc1.onWrite
      rw [if_neg (by omega), if_neg (by omega), if_neg (by omega),
        if_neg (by omega), if_pos (by omega), hm]
      simp
  · intro m3 b
    rfl
  · intro m3 clk hsel
    unfold Mbc3.onWrite
    rw [if_neg (by omega), if_neg (by omega), if_neg (by omega),
      if_neg (by omega), if_pos (by omega), if_pos (by omega)]
    refine ⟨_, rfl, ?_, rfl⟩
    simp [hsel]

/-- C9 witness: the amended statement at addr = 0xa123, v = 0xab, on the
concrete disabled MBC1 and MBC3. -/
theorem C9_disabled_ram_amended_witness :
    mbc1Disabled.onRead 0xa123 = some 0 ∧
    mbc1Disabled.onWrite 0xa123 0xab = some (mbc1Disabled, false) ∧
    ∃ p, Mbc3.onWrite mbc3Disabled 0xa123 0xab 0 = some p ∧
      p.1.ram 0x123 = 0xab ∧ p.1.enable = false := by
  have h := C9_disabled_ram_amended 0xa123 0xab (by decide) (by decide)
  obtain ⟨hr, hw⟩ := h.1 mbc1Disabled rfl
  obtain ⟨p, hp, hram, hen⟩ := h.2.2 mbc3Disabled 0 rfl
  exact ⟨hr, hw, p, hp, hram, hen⟩

/-- `Envelop::amp` keeps the amplitude within 0..15 and returns a value
within 0..15. -/
theorem ampNext_le (e : Envelop) (rate : Nat) (h : e.amp ≤ 15) :
    (e.ampNext rate).1 ≤ 15 ∧ (e.ampNext rate).2.amp ≤ 15 := by
  unfold Envelop.ampNext
  by_cases h1 : e.amp = 0
  · simp [h1]
  · by_cases h2 : e.count = 0
    · simp [h1, h2, h]
    · by_cases h3 : rate * e.count / 64 ≤ e.clock + 1
      · by_cases h4 : e.inc
        · simp [h1, h2, h3, h4]
        · simp [h1, h2, h3, h4]
          omega
      · simp [h1, h2, h3, h]

/-- The square-wave channel's sample never exceeds 15, and its envelope
amplitude stays within 0..15. -/
theorem toneNext_le (t : ToneStream) (rate : Nat) (h : t.env.amp ≤ 15) :
    (t.next rate).1 ≤ 15 ∧ (t.next rate).2.env.amp ≤ 15 := by
  unfold ToneStream.next
  by_cases hs : (t.counter.stop rate).1
  · simp [hs, h]
  · have ha := ampNext_le t.env rate h
    simp only [hs, Bool.false_eq_true, if_false]
    refine ⟨?_, ha.2⟩
    split_ifs <;> first | exact Nat.zero_le _ | exact ha.1

/-- The four-way output scaling of the wave channel keeps a 0..15 sample
in 0..15. -/
theorem waveShiftSel_le (shift amp : Nat) (h : amp ≤ 15) :
    (if shift = 0 then 0
     else if shift = 1 then amp
     else if shift = 2 then amp >>> 1 else amp >>> 2) ≤ 15 := by
  have h1 : amp >>> 1 ≤ amp := by
    rw [Nat.shiftRight_eq_div_pow]
    exact Nat.div_le_self _ _
  have h2 : amp >>> 2 ≤ amp := by
    rw [Nat.shiftRight_eq_div_pow]
    exact Nat.div_le_self _ _
  split_ifs <;> omega

/-- The wave channel's sample never exceeds 15, and its register state
(including wave RAM) is unchanged by sampling. -/
theorem waveNext_le (w : WaveStream) (rate : Nat)
    (h : ∀ i, w.wave.wavebuf i ≤ 255) :
    (w.next rate).1 ≤ 15 ∧ (w.next rate).2.wave = w.wave := by
  unfold WaveStream.next
  by_cases he : w.wave.enable
  · by_cases hs : (w.counter.stop rate).1
    · simp [he, hs]
    · have hb : ∀ j : Nat, (if j % 2 = 0 then w.wave.wavebuf (j / 2) >>> 4
          else w.wave.wavebuf (j / 2) &&& 0xf) ≤ 15 := by
        intro j
        split
        · have := h (j / 2)
          rw [Nat.shiftRight_eq_div_pow]
          omega
        · exact Nat.and_le_right
      simp only [he, hs, Bool.not_true, Bool.false_eq_true, if_false]
      exact ⟨waveShiftSel_le _ _ (hb _), trivial⟩
  · have he2 : w.wave.enable = false := by simpa using he
    simp [he2]

/-- The noise channel's sample never exceeds 15, and its envelope amplitude
stays within 0..15. -/
theorem noiseNext_le (n : NoiseStream) (rate : Nat) (h : n.env.amp ≤ 15) :
    (n.next rate).1 ≤ 15 ∧ (n.next rate).2.env.amp ≤ 15 := by
  unfold NoiseStream.next
  by_cases hs : (n.counter.stop rate).1
  · simp [hs, h]
  · have ha := ampNext_le n.env rate h
    simp only [hs, Bool.false_eq_true, if_false]
    refine ⟨?_, ha.2⟩
    split_ifs <;> first | exact ha.1 | exact Nat.zero_le _

/-- C7: the sound.rs mixer's summed sample is at most 840 for every channel
state satisfying the volume/amplitude invariant — so the `assert!(vol <= 840)`
in `MixerStream::next` holds and the sample never exceeds the declared
`MixerStream::MAX`; the invariant is preserved by sampling, per-channel
volumes computed by `Mixer::get_volume` from NR50/NR51 never exceed 14, and
`ToneStream::new` starts the envelope at the (4-bit) register amplitude. -/
theorem C7_mixer_bounded (m : MixerStream) (rate : Nat) (h : MixInv m) :
    ((m.next rate).1 ≤ 840 ∧ (m.next rate).1 ≤ MixerStream.MAX ∧
     MixInv (m.next rate).2) ∧
    (∀ mx : Mixer, mx.so1_volume ≤ 7 → mx.so2_volume ≤ 7 →
      ∀ i, mx.getVolume i ≤ 14) ∧
    (∀ t : Tone, ∀ b : Bool, t.env_init ≤ 15 →
      (ToneStream.new t b).env.amp ≤ 15) := by
  obtain ⟨hv1, hv2, hv3, hv4, hs1, hs2, hs3, hs4⟩ := h
  refine ⟨?_, ?_, ?_⟩
  · have u1 : (m.tone1.next ToneStream.next rate).1.1 ≤ 15 ∧
        ((m.tone1.next ToneStream.next rate).2).stream.elim True
          (fun t => t.env.amp ≤ 15) := by
      unfold SndUnit.next
      cases hst : m.tone1.stream with
      | none => simp [hst]
      | some t =>
        rw [hst] at hs1
        have := toneNext_le t rate hs1
        simpa using this
    have u2 : (m.tone2.next ToneStream.next rate).1.1 ≤ 15 ∧
        ((m.tone2.next ToneStream.next rate).2).stream.elim True
          (fun t => t.env.amp ≤ 15) := by
      unfold SndUnit.next
      cases hst : m.tone2.stream with
      | none => simp [hst]
      | some t =>
        rw [hst] at hs2
        have := toneNext_le t rate hs2
        simpa using this
    have u3 : (m.wave.next WaveStream.next rate).1.1 ≤ 15 ∧
        ((m.wave.next WaveStream.next rate).2).stream.elim True
          (fun w => ∀ i, w.wave.wavebuf i ≤ 255) := by
      unfold SndUnit.next
      cases hst : m.wave.stream with
      | none => simp [hst]
      | some w =>
        rw [hst] at hs3
        have := waveNext_le w rate hs3
        simp only [Option.elim_some]
        refine ⟨by simpa using this.1, ?_⟩
        intro i
        rw [this.2]
        exact hs3 i
    have u4 : (m.noise.next NoiseStream.next rate).1.1 ≤ 15 ∧
        ((m.noise.next NoiseStream.next rate).2).stream.elim True
          (fun n => n.env.amp ≤ 15) := by
      unfold SndUnit.next
      cases hst : m.noise.stream with
      | none => simp [hst]
      | some n =>
        rw [hst] at hs4
        have := noiseNext_le n rate hs4
        simpa using this
    have hvol1 : (m.tone1.next ToneStream.next rate).1.2 = m.tone1.volume := by
      unfold SndUnit.next
      cases m.tone1.stream <;> rfl
    have hvol2 : (m.tone2.next ToneStream.next rate).1.2 = m.tone2.volume := by
      unfold SndUnit.next
      cases m.tone2.stream <;> rfl
    have hvol3 : (m.wave.next WaveStream.next rate).1.2 = m.wave.volume := by
      unfold SndUnit.next
      cases m.wave.stream <;> rfl
    have hvol4 : (m.noise.next NoiseStream.next rate).1.2 = m.noise.volume := by
      unfold SndUnit.next
      cases m.noise.stream <;> rfl
    have hkv1 : ((m.tone1.next ToneStream.next rate).2).volume = m.tone1.volume := by
      unfold SndUnit.next
      cases m.tone1.stream <;> rfl
    have hkv2 : ((m.tone2.next ToneStream.next rate).2).volume = m.tone2.volume := by
      unfold SndUnit.next
      cases m.tone2.stream <;> rfl
    have hkv3 : ((m.wave.next WaveStream.next rate).2).volume = m.wave.volume := by
      unfold SndUnit.next
      cases m.wave.stream <;> rfl
    have hkv4 : ((m.noise.next NoiseStream.next rate).2).volume = m.noise.volume := by
      unfold SndUnit.next
      cases m.noise.stream <;> rfl
    have hp1 : (m.tone1.next ToneStream.next rate).1.1 *
        (m.tone1.next ToneStream.next rate).1.2 ≤ 210 := by
      rw [hvol1]
      calc _ ≤ 15 * 14 := Nat.mul_le_mul u1.1 hv1
        _ = 210 := rfl
    have hp2 : (m.tone2.next ToneStream.next rate).1.1 *
        (m.tone2.next ToneStream.next rate).1.2 ≤ 210 := by
      rw [hvol2]
      calc _ ≤ 15 * 14 := Nat.mul_le_mul u2.1 hv2
        _ = 210 := rfl
    have hp3 : (m.wave.next WaveStream.next rate).1.1 *
        (m.wave.next WaveStream.next rate).1.2 ≤ 210 := by
      rw [hvol3]
      calc _ ≤ 15 * 14 := Nat.mul_le_mul u3.1 hv3
        _ = 210 := rfl
    have hp4 : (m.noise.next NoiseStream.next rate).1.1 *
        (m.noise.next NoiseStream.next rate).1.2 ≤ 210 := by
      rw [hvol4]
      calc _ ≤ 15 * 14 := Nat.mul_le_mul u4.1 hv4
        _ = 210 := rfl
    have hsum : (m.next rate).1 ≤ 840 := by
      simp only [MixerStream.next]
      omega
    refine ⟨hsum, le_trans hsum (by decide), ?_⟩
    unfold MixerStream.next MixInv
    refine ⟨?_, ?_, ?_, ?_, ?_, ?_, ?_, ?_⟩ <;>
      simp only [] <;>
      first
        | (rw [hkv1]; exact hv1)
        | (rw [hkv2]; exact hv2)
        | (rw [hkv3]; exact hv3)
        | (rw [hkv4]; exact hv4)
        | exact u1.2
        | exact u2.2
        | exact u3.2
        | exact u4.2
  · intro mx hx1 hx2 i
    simp only [Mixer.getVolume]
    split_ifs <;> omega
  · intro t b ht
    simpa [ToneStream.new, Envelop.new] using ht

/-- C7 witness: the invariant and the bound at the concrete loud mixer state
(channel 1 at amplitude 15, volume 14, other channels off), whose sample at
rate 1 evaluates to 210. -/
theorem C7_mixer_bounded_witness :
    MixInv mixLoud ∧ (MixerStream.next mixLoud 1).1 ≤ 840 ∧
    (MixerStream.next mixLoud 1).1 = 210 := by
  have hInv : MixInv mixLoud :=
    ⟨by decide, by decide, by decide, by decide,
     (by decide : toneLoudStream.env.amp ≤ 15), trivial, trivial, trivial⟩
  exact ⟨hInv, (C7_mixer_bounded mixLoud 1 hInv).1.1, by decide⟩

/-- C8 counterexample: writing 0x00 (bit 7 clear) to NR52 through sound.rs
`Mixer::on_write` leaves channel 1's stream installed (its `on` latch still
reads back true), leaves its volume at 14, and the mixer keeps producing the
same nonzero sample (210) — nothing is reset and the output is not silent. -/
theorem C8_nr52_disable_counterexample :
    nr52DisableResult.1.enable = false ∧
    nr52DisableResult.2.tone1.isOn = true ∧
    nr52DisableResult.2.tone1.volume = 14 ∧
    (MixerStream.next nr52DisableResult.2 1).1 = 210 := by
  refine ⟨?_, ?_, ?_, ?_⟩ <;> decide

/-- C8 amended: writing a value with bit 7 clear to NR52 only clears the
mixer's master-enable flag and recomputes the four channel volumes from the
unchanged NR50/NR51 state; the channel streams are left installed.  In the
apu/mixer.rs revision the propagated enable flag makes `next` return 0, so
samples are silent there while the master enable is low. -/
theorem C8_nr52_disable_amended (mx : Mixer) (s : MixerStream) (v : Nat)
    (hv : v &&& 0x80 = 0) :
    ((Mixer.onWrite mx 0xff26 v s).1.enable = false ∧
     (Mixer.onWrite mx 0xff26 v s).2.tone1.stream = s.tone1.stream ∧
     (Mixer.onWrite mx 0xff26 v s).2.tone2.stream = s.tone2.stream ∧
     (Mixer.onWrite mx 0xff26 v s).2.wave.stream = s.wave.stream ∧
     (Mixer.onWrite mx 0xff26 v s).2.noise.stream = s.noise.stream ∧
     (Mixer.onWrite mx 0xff26 v s).2.tone1.volume = mx.getVolume 0 ∧
     (Mixer.onWrite mx 0xff26 v s).2.tone2.volume = mx.getVolume 1 ∧
     (Mixer.onWrite mx 0xff26 v s).2.wave.volume = mx.getVolume 2 ∧
     (Mixer.onWrite mx 0xff26 v s).2.noise.volume = mx.getVolume 3) ∧
    (∀ (α β γ : Type) (fa : α → Nat → Nat × α) (fb : β → Nat → Nat × β)
       (fc : γ → Nat → Nat × γ) (amx : ApuMixer) (st : ApuMixerStream α β γ)
       (rate : Nat),
      (ApuMixer.setEnable amx false st).2.enable = false ∧
      (ApuMixerStream.next fa fb fc (ApuMixer.setEnable amx false st).2 rate).1 = 0) := by
  constructor
  · have hb : (v &&& 0x80 != 0) = false := by
      simp [hv]
    simp [Mixer.onWrite, Mixer.updateVolume, Mixer.getVolume, hb]
  · intro α β γ fa fb fc amx st rate
    exact ⟨rfl, rfl⟩

/-- C8 witness: the amended statement at the concrete loud mixer state and a
trivial apu mixer stream over `Nat` channels. -/
theorem C8_nr52_disable_amended_witness :
    (0x00 &&& 0x80 = 0) ∧
    (Mixer.onWrite mixerLoud 0xff26 0x00 mixLoud).1.enable = false ∧
    (Mixer.onWrite mixerLoud 0xff26 0x00 mixLoud).2.tone1.volume = mixerLoud.getVolume 0 ∧
    (ApuMixerStream.next (fun (s : Nat) (_ : Nat) => (0, s))
      (fun (s : Nat) (_ : Nat) => (0, s)) (fun (s : Nat) (_ : Nat) => (0, s))
      (ApuMixer.setEnable
        { ctrl := 0, so1_volume := 7, so2_volume := 7, so_mask := 0x11, enable := true }
        false
        { tone1 := { stream := some 1, volume := 14 }
          tone2 := { stream := none, volume := 0 }
          wave := { stream := none, volume := 0 }
          noise := { stream := none, volume := 0 }
          enable := true }).2 5).1 = 0 := by
  have h := C8_nr52_disable_amended mixerLoud mixLoud 0x00 (by decide)
  refine ⟨by decide, h.1.1, h.1.2.2.2.2.2.1, ?_⟩
  exact (h.2 Nat Nat Nat (fun s _ => (0, s)) (fun s _ => (0, s)) (fun s _ => (0, s))
    { ctrl := 0, so1_volume := 7, so2_volume := 7, so_mask := 0x11, enable := true }
    { tone1 := { stream := some 1, volume := 14 }
      tone2 := { stream := none, volume := 0 }
      wave := { stream := none, volume := 0 }
      noise := { stream := none, volume := 0 }
      enable := true } 5).2

/-- C4 counterexample: turn the LCD on from reset, step through one HBLANK
period (LY becomes 1), then turn the LCD off — the LCD is off and the mode
is parked in OFF, but LY is 1, not 0, so "when the LCD is off, LY is 0"
fails (and a subsequent LCD-on starts HBLANK with LY still 1, not 0). -/
theorem C4_lcd_off_ly_counterexample :
    gpuOffMidFrame.1.lcd_control.testBit 7 = false ∧
    gpuOffMidFrame.1.mode = Mode.off ∧
    gpuOffMidFrame.1.ly = 1 ∧
    gpuOffMidFrame.1.ly ≠ 0 ∧
    ((gpuOffMidFrame.1.writeCtrl 0x80 0).1.mode = Mode.hblank ∧
     (gpuOffMidFrame.1.writeCtrl 0x80 0).1.ly = 1) := by
  refine ⟨?_, ?_, ?_, ?_, ?_, ?_⟩ <;> decide

/-- The mode `match` of `Gpu::step` keeps the scanline bounds: the line
counter stays ≤ 143 in OAM/DRAWING/HBLANK, stays ≤ 153 overall, and the OFF
mode is entered or left only by LCDC writes. -/
theorem gpuCase_bounds (g : Gpu) (irq clocks : Nat)
    (h1 : (g.mode = Mode.oamScan ∨ g.mode = Mode.drawing ∨ g.mode = Mode.hblank) →
      g.ly ≤ 143)
    (h2 : g.ly ≤ 153) :
    (((gpuCase g irq clocks).2.2.2 = Mode.oamScan ∨
      (gpuCase g irq clocks).2.2.2 = Mode.drawing ∨
      (gpuCase g irq clocks).2.2.2 = Mode.hblank) → (gpuCase g irq clocks).1 ≤ 143) ∧
    (gpuCase g irq clocks).1 ≤ 153 ∧
    ((gpuCase g irq clocks).2.2.2 = Mode.off ↔ g.mode = Mode.off) := by
  cases hm : g.mode
  case oamScan =>
    have hly := h1 (by simp [hm])
    simp only [gpuCase, hm]
    split_ifs <;> simp_all
  case drawing =>
    have hly := h1 (by simp [hm])
    simp only [gpuCase, hm]
    split_ifs <;> simp_all
  case hblank =>
    have hly := h1 (by simp [hm])
    have hmod : (g.ly + 1) % 256 = g.ly + 1 := by omega
    simp only [gpuCase, hm, hmod]
    split_ifs <;> simp_all <;> try omega
  case vblank =>
    have hmod : (g.ly + 1) % 256 = g.ly + 1 := by omega
    simp only [gpuCase, hm, hmod]
    split_ifs <;> simp_all
  case off =>
    simp only [gpuCase, hm]
    simp [h2]

/-- Reducing an LCDC byte modulo 256 does not change its bit 7. -/
theorem testBit7_mod256 (v : Nat) : (v % 256).testBit 7 = v.testBit 7 := by
  rw [show (256 : Nat) = 2 ^ 8 from rfl, Nat.testBit_mod_two_pow]
  simp

/-- C4 amended: the mode is by construction one of OAM_SCAN, DRAWING,
HBLANK, VBLANK, OFF; `Gpu::step` preserves the invariant (per-mode line
bounds, LY ≤ 153, LCD-off iff mode OFF), so LY stays in [0,153] under
stepping; turning the LCD on resets the clock counter and puts the PPU in
HBLANK with LY left unchanged (not reset to 0); turning it off clears the
VBLANK bit of IF and parks the mode in OFF with LY retaining its value; an
LCDC write keeps the invariant whenever LY ≤ 143, and the reset state
satisfies the invariant. -/
theorem C4_ppu_invariant_amended (g : Gpu) (t irq v : Nat) (h : GpuInv g) :
    (GpuInv (g.step t irq).1 ∧ (g.step t irq).1.ly ≤ 153) ∧
    (g.lcd_control.testBit 7 = false → v.testBit 7 = true →
      (g.writeCtrl v irq).1.clocks = 0 ∧
      (g.writeCtrl v irq).1.mode = Mode.hblank ∧
      (g.writeCtrl v irq).1.ly = g.ly) ∧
    (g.lcd_control.testBit 7 = true → v.testBit 7 = false →
      (g.writeCtrl v irq).1.mode = Mode.off ∧
      (g.writeCtrl v irq).1.ly = g.ly ∧
      ((g.writeCtrl v irq).2).testBit 0 = false) ∧
    (g.writeCtrl v irq).1.ly = g.ly ∧
    (g.ly ≤ 143 → GpuInv (g.writeCtrl v irq).1) ∧
    GpuInv Gpu.new := by
  obtain ⟨h1, h2, h3⟩ := h
  have hc := gpuCase_bounds g irq (g.clocks + t) h1 h2
  have hstep : (g.step t irq).1.ly = (gpuCase g irq (g.clocks + t)).1 ∧
      (g.step t irq).1.mode = (gpuCase g irq (g.clocks + t)).2.2.2 ∧
      (g.step t irq).1.lcd_control = g.lcd_control := by
    exact ⟨rfl, rfl, rfl⟩
  refine ⟨⟨⟨?_, ?_, ?_⟩, ?_⟩, ?_, ?_, ?_, ?_, ?_⟩
  · rw [hstep.1, hstep.2.1]
    exact hc.1
  · rw [hstep.1]
    exact hc.2.1
  · rw [hstep.2.1, hstep.2.2]
    exact h3.trans hc.2.2.symm
  · rw [hstep.1]
    exact hc.2.1
  · intro hoff hon
    simp only [Gpu.writeCtrl, hoff, hon]
    simp
  · intro hon hoff
    simp only [Gpu.writeCtrl, hon, hoff]
    refine ⟨by simp, by simp, ?_⟩
    simp only [Nat.testBit_and]
    simp
  · simp only [Gpu.writeCtrl]
    split_ifs <;> rfl
  · intro hly
    unfold Gpu.writeCtrl GpuInv
    by_cases hbold : g.lcd_control.testBit 7 <;> by_cases hbnew : v.testBit 7 <;>
      simp only [hbold, hbnew, Bool.not_true, Bool.not_false, Bool.true_and,
        Bool.false_and, Bool.and_true, Bool.and_false, if_true, if_false] <;>
      simp_all [testBit7_mod256]
  · decide

/-- C4 witness: the amended statement at the reset PPU with an LCD-enabling
LCDC write and a 4-clock step. -/
theorem C4_ppu_invariant_amended_witness :
    GpuInv Gpu.new ∧
    GpuInv (Gpu.new.step 4 0).1 ∧
    (Gpu.new.writeCtrl 0x80 0).1.clocks = 0 ∧
    (Gpu.new.writeCtrl 0x80 0).1.mode = Mode.hblank ∧
    (Gpu.new.writeCtrl 0x80 0).1.ly = 0 ∧
    GpuInv (Gpu.new.writeCtrl 0x80 0).1 := by
  have h := C4_ppu_invariant_amended Gpu.new 4 0 0x80 (by decide)
  have hon := h.2.1 (by decide) (by decide)
  exact ⟨h.2.2.2.2.2, h.1.1, hon.1, hon.2.1, by rw [hon.2.2]; rfl, h.2.2.2.2.1 (by decide)⟩

/-- Every TAC rate is at least 16 clocks. -/
theorem tacInterval_ge16 (ctrl : Nat) : 16 ≤ tacInterval ctrl := by
  unfold tacInterval
  split_ifs <;> norm_num

/-- Every TAC rate is a multiple of 4. -/
theorem tacInterval_mod4 (ctrl : Nat) : tacInterval ctrl % 4 = 0 := by
  unfold tacInterval
  split_ifs <;> norm_num

/-- DIV half of `Timer::step` when the countdown does not expire. -/
theorem stepDiv_ge (t : Timer) (time : Nat) (h : time ≤ t.div_clocks) :
    t.stepDiv time = { t with div_clocks := t.div_clocks - time } := by
  unfold Timer.stepDiv
  rw [if_neg (by omega)]

/-- DIV half of `Timer::step` when the countdown expires: DIV increments
once and the countdown reloads to 256 minus the overshoot. -/
theorem stepDiv_lt (t : Timer) (time : Nat) (h : t.div_clocks < time) :
    t.stepDiv time =
      { t with div := (t.div + 1) % 256
               div_clocks := 256 - (time - t.div_clocks) } := by
  unfold Timer.stepDiv
  rw [if_pos h]

/-- TIMA half of `Timer::step` is inert while TAC bit 2 is clear. -/
theorem stepTim_off (t : Timer) (irq : Ints) (time : Nat)
    (h : t.ctrl &&& 4 = 0) : t.stepTim irq time = (t, irq) := by
  unfold Timer.stepTim
  rw [if_pos h]

/-- TIMA half of `Timer::step` when enabled and the countdown does not
expire. -/
theorem stepTim_ge (t : Timer) (irq : Ints) (time : Nat)
    (h0 : ¬t.ctrl &&& 4 = 0) (h : time ≤ t.tim_clocks) :
    t.stepTim irq time = ({ t with tim_clocks := t.tim_clocks - time }, irq) := by
  unfold Timer.stepTim
  rw [if_neg h0, if_neg (by omega)]

/-- TIMA half of a 4-clock `Timer::step` when enabled and the countdown
expires: one increment (with TMA reload and IRQ on overflow) and the
countdown reloads to the TAC rate minus the overshoot. -/
theorem stepTim_lt4 (t : Timer) (irq : Ints)
    (h0 : ¬t.ctrl &&& 4 = 0) (h : t.tim_clocks < 4) :
    t.stepTim irq 4 =
      ({ t with tim := if t.tim = 255 then t.tim_load else (t.tim + 1) % 256
                tim_clocks := tacInterval t.ctrl - (4 - t.tim_clocks) },
       if t.tim = 255 then { irq with timer := true } else irq) := by
  unfold Timer.stepTim
  rw [if_neg h0, if_pos h]
  unfold timLoop
  simp only []
  rw [dif_pos (le_trans (show 4 - t.tim_clocks ≤ 16 by omega) (tacInterval_ge16 t.ctrl))]
  by_cases hof : t.tim = 255
  · simp [hof]
  · simp [hof]

/-- The DIV half of `Timer::step` never touches the TIMA fields, TAC or TMA. -/
theorem stepDiv_tim_fields (t : Timer) (time : Nat) :
    (t.stepDiv time).tim = t.tim ∧ (t.stepDiv time).tim_clocks = t.tim_clocks ∧
    (t.stepDiv time).ctrl = t.ctrl ∧ (t.stepDiv time).tim_load = t.tim_load := by
  unfold Timer.stepDiv
  split_ifs <;> exact ⟨rfl, rfl, rfl, rfl⟩

/-- The TIMA half of `Timer::step` never touches the DIV fields, TAC or TMA. -/
theorem stepTim_div_fields (t : Timer) (irq : Ints) (time : Nat) :
    (t.stepTim irq time).1.div = t.div ∧
    (t.stepTim irq time).1.div_clocks = t.div_clocks ∧
    (t.stepTim irq time).1.ctrl = t.ctrl ∧
    (t.stepTim irq time).1.tim_load = t.tim_load := by
  unfold Timer.stepTim
  split_ifs <;> exact ⟨rfl, rfl, rfl, rfl⟩

/-- A 4-clock timer tick leaves TAC and TMA unchanged. -/
theorem tick_fields (s : Timer × Ints) :
    (timerTick s).1.ctrl = s.1.ctrl ∧ (timerTick s).1.tim_load = s.1.tim_load := by
  have h1 := stepDiv_tim_fields s.1 4
  have h2 := stepTim_div_fields (s.1.stepDiv 4) s.2 4
  exact ⟨h2.2.2.1.trans h1.2.2.1, h2.2.2.2.trans h1.2.2.2⟩

/-- A 4-clock tick with at least 4 clocks left on the DIV countdown. -/
theorem tick_div_ge (s : Timer × Ints) (h : 4 ≤ s.1.div_clocks) :
    (timerTick s).1.div = s.1.div ∧
    (timerTick s).1.div_clocks = s.1.div_clocks - 4 := by
  have hf := stepTim_div_fields (s.1.stepDiv 4) s.2 4
  unfold timerTick Timer.step
  constructor
  · rw [hf.1, stepDiv_ge _ _ (by omega)]
  · rw [hf.2.1, stepDiv_ge _ _ (by omega)]

/-- A 4-clock tick with an expiring DIV countdown: DIV increments once. -/
theorem tick_div_lt (s : Timer × Ints) (h : s.1.div_clocks < 4) :
    (timerTick s).1.div = (s.1.div + 1) % 256 ∧
    (timerTick s).1.div_clocks = 252 + s.1.div_clocks := by
  have hf := stepTim_div_fields (s.1.stepDiv 4) s.2 4
  unfold timerTick Timer.step
  constructor
  · rw [hf.1, stepDiv_lt _ _ h]
  · rw [hf.2.1, stepDiv_lt _ _ h]
    show 256 - (4 - s.1.div_clocks) = 252 + s.1.div_clocks
    omega

/-- A 4-clock tick with TIMA enabled and at least 4 clocks left on its
countdown: TIMA, IF and the phase-to-go (minus 4) are preserved. -/
theorem tick_tim_ge (s : Timer × Ints) (h0 : ¬s.1.ctrl &&& 4 = 0)
    (h : 4 ≤ s.1.tim_clocks) :
    (timerTick s).1.tim = s.1.tim ∧
    (timerTick s).1.tim_clocks = s.1.tim_clocks - 4 ∧
    (timerTick s).2 = s.2 := by
  have h1 := stepDiv_tim_fields s.1 4
  unfold timerTick Timer.step
  rw [stepTim_ge _ _ _ (by rw [h1.2.2.1]; exact h0) (by rw [h1.2.1]; omega)]
  refine ⟨?_, ?_, rfl⟩
  · show (s.1.stepDiv 4).tim = s.1.tim
    exact h1.1
  · show (s.1.stepDiv 4).tim_clocks - 4 = s.1.tim_clocks - 4
    rw [h1.2.1]

/-- A 4-clock tick with TIMA enabled and an expiring countdown: TIMA
increments (reloading from TMA and raising the timer IRQ on overflow) and
the countdown reloads to the TAC rate minus the overshoot. -/
theorem tick_tim_lt (s : Timer × Ints) (h0 : ¬s.1.ctrl &&& 4 = 0)
    (h : s.1.tim_clocks < 4) :
    (timerTick s).1.tim =
      (if s.1.tim = 255 then s.1.tim_load else (s.1.tim + 1) % 256) ∧
    (timerTick s).1.tim_clocks = tacInterval s.1.ctrl - (4 - s.1.tim_clocks) ∧
    (timerTick s).2 = (if s.1.tim = 255 then { s.2 with timer := true } else s.2) := by
  have h1 := stepDiv_tim_fields s.1 4
  unfold timerTick Timer.step
  rw [stepTim_lt4 _ _ (by rw [h1.2.2.1]; exact h0) (by rw [h1.2.1]; omega)]
  refine ⟨?_, ?_, ?_⟩
  · show (if (s.1.stepDiv 4).tim = 255 then (s.1.stepDiv 4).tim_load
        else ((s.1.stepDiv 4).tim + 1) % 256) = _
    rw [h1.1, h1.2.2.2]
  · show tacInterval (s.1.stepDiv 4).ctrl - (4 - (s.1.stepDiv 4).tim_clocks) = _
    rw [h1.2.1, h1.2.2.1]
  · show (if (s.1.stepDiv 4).tim = 255 then { s.2 with timer := true } else s.2) = _
    rw [h1.1]

/-- Iterated 4-clock ticks while the DIV countdown has clocks to spare:
DIV is unchanged and the countdown decreases linearly. -/
theorem divCountdown (k : Nat) : ∀ s : Timer × Ints, 4 * k ≤ s.1.div_clocks →
    (timerTick^[k] s).1.div = s.1.div ∧
    (timerTick^[k] s).1.div_clocks = s.1.div_clocks - 4 * k := by
  induction k with
  | zero => intro s _; simp
  | succ n ih =>
    intro s h
    rw [Function.iterate_succ_apply]
    have ht := tick_div_ge s (by omega)
    have hrec := ih (timerTick s) (by rw [ht.2]; omega)
    refine ⟨hrec.1.trans ht.1, ?_⟩
    rw [hrec.2, ht.2]
    omega

/-- Iterated 4-clock ticks while the TIMA countdown has clocks to spare:
TIMA, IF, TAC and TMA are unchanged and the countdown decreases linearly. -/
theorem timCountdown (k : Nat) : ∀ s : Timer × Ints, ¬s.1.ctrl &&& 4 = 0 →
    4 * k ≤ s.1.tim_clocks →
    (timerTick^[k] s).1.tim = s.1.tim ∧
    (timerTick^[k] s).1.tim_clocks = s.1.tim_clocks - 4 * k ∧
    (timerTick^[k] s).2 = s.2 ∧
    (timerTick^[k] s).1.ctrl = s.1.ctrl ∧
    (timerTick^[k] s).1.tim_load = s.1.tim_load := by
  induction k with
  | zero => intro s _ _; simp
  | succ n ih =>
    intro s h0 h
    rw [Function.iterate_succ_apply]
    have hfld := tick_fields s
    have ht := tick_tim_ge s h0 (by omega)
    have hrec := ih (timerTick s) (by rw [hfld.1]; exact h0) (by rw [ht.2.1]; omega)
    refine ⟨hrec.1.trans ht.1, ?_, hrec.2.2.1.trans ht.2.2,
      hrec.2.2.2.1.trans hfld.1, hrec.2.2.2.2.trans hfld.2⟩
    rw [hrec.2.1, ht.2.1]
    omega

/-- C6: stepping the timer in 4-clock ticks, (i) DIV advances exactly once
per 256 clocks — 64 ticks from any 4-aligned phase increment DIV once and
restore the phase; (ii) any write to 0xFF04 resets DIV to 0; (iii) TIMA and
its countdown are untouched while TAC bit 2 is clear; (iv) with TAC bit 2
set, one TAC period (1024/16/64/256 clocks per TAC bits 0..1) of ticks from
a 4-aligned phase increments TIMA exactly once, restoring the phase, and a
TIMA overflow reloads TIMA from TMA and raises the TIMER interrupt. -/
theorem C6_timer (t : Timer) (irq : Ints)
    (hd1 : t.div_clocks % 4 = 0) (hd2 : t.div_clocks ≤ 252)
    (ht0 : ¬t.ctrl &&& 4 = 0) (ht1 : t.tim_clocks % 4 = 0)
    (ht2 : t.tim_clocks + 4 ≤ tacInterval t.ctrl) (ht3 : t.tim ≤ 255) :
    ((timerTick^[64] (t, irq)).1.div = (t.div + 1) % 256 ∧
     (timerTick^[64] (t, irq)).1.div_clocks = t.div_clocks) ∧
    (∀ t2 : Timer, ∀ v : Nat, (Timer.onWrite t2 0xff04 v).div = 0) ∧
    (∀ t2 : Timer, ∀ irq2 : Ints, ∀ time : Nat, t2.ctrl &&& 4 = 0 →
      (Timer.step t2 irq2 time).1.tim = t2.tim ∧
      (Timer.step t2 irq2 time).1.tim_clocks = t2.tim_clocks ∧
      (Timer.step t2 irq2 time).2 = irq2) ∧
    ((timerTick^[tacInterval t.ctrl / 4] (t, irq)).1.tim =
       (if t.tim = 255 then t.tim_load else t.tim + 1) ∧
     (timerTick^[tacInterval t.ctrl / 4] (t, irq)).1.tim_clocks = t.tim_clocks ∧
     (timerTick^[tacInterval t.ctrl / 4] (t, irq)).2 =
       (if t.tim = 255 then { irq with timer := true } else irq)) := by
  have hI4 := tacInterval_mod4 t.ctrl
  have hI16 := tacInterval_ge16 t.ctrl
  refine ⟨?_, ?_, ?_, ?_⟩
  · obtain ⟨j, hj⟩ : ∃ j, t.div_clocks = 4 * j := ⟨t.div_clocks / 4, by omega⟩
    have e1 := divCountdown j (t, irq) (by show 4 * j ≤ t.div_clocks; omega)
    have hdc0 : (timerTick^[j] (t, irq)).1.div_clocks = 0 := by
      rw [e1.2]
      show t.div_clocks - 4 * j = 0
      omega
    have e2 := tick_div_lt (timerTick^[j] (t, irq)) (by omega)
    have e3 := divCountdown (63 - j) (timerTick (timerTick^[j] (t, irq)))
      (by rw [e2.2, hdc0]; omega)
    have hsplit : (64 : Nat) = (63 - j) + (1 + j) := by omega
    rw [hsplit, Function.iterate_add_apply, Function.iterate_add_apply,
      Function.iterate_one]
    constructor
    · rw [e3.1, e2.1, e1.1]
    · rw [e3.2, e2.2, hdc0]
      omega
  · intro t2 v
    simp [Timer.onWrite]
  · intro t2 irq2 time h0
    have h1 := stepDiv_tim_fields t2 time
    unfold Timer.step
    rw [stepTim_off _ _ _ (by rw [h1.2.2.1]; exact h0)]
    exact ⟨h1.1, h1.2.1, rfl⟩
  · obtain ⟨j, hj⟩ : ∃ j, t.tim_clocks = 4 * j := ⟨t.tim_clocks / 4, by omega⟩
    have e1 := timCountdown j (t, irq) ht0 (by show 4 * j ≤ t.tim_clocks; omega)
    have hc0 : (timerTick^[j] (t, irq)).1.tim_clocks = 0 := by
      rw [e1.2.1]
      show t.tim_clocks - 4 * j = 0
      omega
    have hctrl1 : (timerTick^[j] (t, irq)).1.ctrl = t.ctrl := e1.2.2.2.1
    have e2 := tick_tim_lt (timerTick^[j] (t, irq)) (by rw [hctrl1]; exact ht0)
      (by omega)
    have hfld := tick_fields (timerTick^[j] (t, irq))
    have e3 := timCountdown (tacInterval t.ctrl / 4 - j - 1)
      (timerTick (timerTick^[j] (t, irq)))
      (by rw [hfld.1, hctrl1]; exact ht0)
      (by rw [e2.2.1, hctrl1, hc0]; omega)
    have hsplit : tacInterval t.ctrl / 4 =
        (tacInterval t.ctrl / 4 - j - 1) + (1 + j) := by omega
    rw [hsplit, Function.iterate_add_apply, Function.iterate_add_apply,
      Function.iterate_one]
    refine ⟨?_, ?_, ?_⟩
    · rw [e3.1, e2.1, e1.1, e1.2.2.2.2]
      by_cases hof : t.tim = 255
      · rw [if_pos hof, if_pos hof]
      · rw [if_neg hof, if_neg hof]
        show (t.tim + 1) % 256 = t.tim + 1
        omega
    · rw [e3.2.1, e2.2.1, hctrl1, hc0]
      omega
    · rw [e3.2.2.1, e2.2.2, e1.1, e1.2.2.1]

/-- C6 witness: the timer at DIV phase 252/256 with TIMA = 255, TMA = 7,
TAC = 5 (enabled, 16-clock period, phase 12/16): 64 ticks bump DIV from 3
to 4 restoring the phase; 4 ticks overflow TIMA, reload 7, raise the timer
IRQ; a DIV write resets DIV. -/
theorem C6_timer_witness :
    (timerTick^[64] (timerW, Ints.set 0)).1.div = 4 ∧
    (timerTick^[64] (timerW, Ints.set 0)).1.div_clocks = 252 ∧
    (timerTick^[4] (timerW, Ints.set 0)).1.tim = 7 ∧
    (timerTick^[4] (timerW, Ints.set 0)).2.timer = true ∧
    (Timer.onWrite timerW 0xff04 0xab).div = 0 := by
  have h := C6_timer timerW (Ints.set 0) (by decide) (by decide) (by decide)
    (by decide) (by decide) (by decide)
  have he : tacInterval timerW.ctrl / 4 = 4 := by decide
  rw [he] at h
  refine ⟨?_, ?_, ?_, ?_, h.2.1 timerW 0xab⟩
  · rw [h.1.1]
    decide
  · rw [h.1.2]
    decide
  · rw [h.2.2.2.1]
    decide
  · rw [h.2.2.2.2.2]
    decide
